import Mathlib

/-!
Formal model of the invoice-extraction script (src/邮件发票.py).

Strings are modelled as `List Char`; Python `float` values produced by the
script are modelled exactly as rationals (`ℚ`), since every number the script
builds comes from a decimal literal.  Python regular-expression matching is
modelled by functions that reproduce the leftmost / greedy-with-backtracking
behaviour of `re.search` for the concrete patterns appearing in the script.
-/

namespace Invoice

/-- Code points for which Python's `str.isspace()` (and hence `str.strip()`
and the regex class `\s`) holds: ASCII whitespace, the C1 separators, and the
Unicode space characters. -/
def pyIsSpaceN (n : Nat) : Bool :=
  n = 0x20 || n = 0x9 || n = 0xa || n = 0xd || n = 0xb || n = 0xc ||
  n = 0x1c || n = 0x1d || n = 0x1e || n = 0x1f || n = 0x85 || n = 0xa0 ||
  n = 0x1680 || (0x2000 ≤ n && n ≤ 0x200a) ||
  n = 0x2028 || n = 0x2029 || n = 0x202f || n = 0x205f || n = 0x3000

/-- Whitespace character (Python `str.isspace()` / regex `\s`). -/
def pyIsSpace (c : Char) : Bool := pyIsSpaceN c.toNat

/-- First code points of the ten-character runs of Unicode decimal digits
(category Nd): ASCII digits followed by the other scripts' digit blocks.
Python's `\d` matches exactly these characters and `float()` accepts them. -/
def ndStarts : List Nat :=
  [0x30, 0x660, 0x6f0, 0x7c0, 0x966, 0x9e6, 0xa66, 0xae6, 0xb66, 0xbe6,
   0xc66, 0xce6, 0xd66, 0xde6, 0xe50, 0xed0, 0xf20, 0x1040, 0x1090, 0x17e0,
   0x1810, 0x1946, 0x19d0, 0x1a80, 0x1a90, 0x1b50, 0x1bb0, 0x1c40, 0x1c50,
   0xa620, 0xa8d0, 0xa900, 0xa9d0, 0xa9f0, 0xaa50, 0xabf0, 0xff10,
   0x104a0, 0x10d30, 0x11066, 0x110f0, 0x11136, 0x111d0, 0x112f0, 0x11450,
   0x114d0, 0x11650, 0x116c0, 0x11730, 0x118e0, 0x11950, 0x11c50, 0x11d50,
   0x11da0, 0x11f50, 0x16a60, 0x16ac0, 0x16b50, 0x1d7ce, 0x1d7d8, 0x1d7e2,
   0x1d7ec, 0x1d7f6, 0x1e140, 0x1e2f0, 0x1e4f0, 0x1e950, 0x1fbf0]

/-- Numeric value of a Unicode decimal digit code point. -/
def pyDigitValN (n : Nat) : Option Nat :=
  match ndStarts.find? (fun s => decide (s ≤ n) && decide (n < s + 10)) with
  | some s => some (n - s)
  | none => none

/-- Numeric value of a Unicode decimal digit (Python `\d` / `float()` digits),
`none` for any other character. -/
def pyDigitVal (c : Char) : Option Nat := pyDigitValN c.toNat

/-- Python regex `\d`: a Unicode decimal digit. -/
def isPyDigit (c : Char) : Bool := (pyDigitVal c).isSome

/-- Python `str.strip()`: remove leading and trailing whitespace. -/
def pyStrip (l : List Char) : List Char :=
  ((l.dropWhile pyIsSpace).reverse.dropWhile pyIsSpace).reverse

/-- Python `str.split(sep)` for a single-character separator: the list of
chunks between occurrences of `sep` (one more chunk than separators). -/
def pySplit (sep : Char) : List Char → List (List Char)
  | [] => [[]]
  | c :: rest =>
    match pySplit sep rest with
    | [] => [[c]]
    | h :: t => if c = sep then [] :: h :: t else (c :: h) :: t

/-- Membership of a code point in a list of inclusive code-point ranges. -/
def inRanges (rs : List (Nat × Nat)) (n : Nat) : Bool :=
  rs.any (fun r => decide (r.1 ≤ n) && decide (n ≤ r.2))

/-- Inclusive code-point ranges of the characters for which Python's
per-character `isupper()` test holds (the uppercase characters of the Unicode
database CPython uses, version 14.0). -/
def upperRanges : List (Nat × Nat) :=
  [(0x41, 0x5a), (0xc0, 0xd6), (0xd8, 0xde), (0x100, 0x100), (0x102, 0x102),
   (0x104, 0x104), (0x106, 0x106), (0x108, 0x108), (0x10a, 0x10a),
   (0x10c, 0x10c), (0x10e, 0x10e), (0x110, 0x110), (0x112, 0x112),
   (0x114, 0x114), (0x116, 0x116), (0x118, 0x118), (0x11a, 0x11a),
   (0x11c, 0x11c), (0x11e, 0x11e), (0x120, 0x120), (0x122, 0x122),
   (0x124, 0x124), (0x126, 0x126), (0x128, 0x128), (0x12a, 0x12a),
   (0x12c, 0x12c), (0x12e, 0x12e), (0x130, 0x130), (0x132, 0x132),
   (0x134, 0x134), (0x136, 0x136), (0x139, 0x139), (0x13b, 0x13b),
   (0x13d, 0x13d), (0x13f, 0x13f), (0x141, 0x141), (0x143, 0x143),
   (0x145, 0x145), (0x147, 0x147), (0x14a, 0x14a), (0x14c, 0x14c),
   (0x14e, 0x14e), (0x150, 0x150), (0x152, 0x152), (0x154, 0x154),
   (0x156, 0x156), (0x158, 0x158), (0x15a, 0x15a), (0x15c, 0x15c),
   (0x15e, 0x15e), (0x160, 0x160), (0x162, 0x162), (0x164, 0x164),
   (0x166, 0x166), (0x168, 0x168), (0x16a, 0x16a), (0x16c, 0x16c),
   (0x16e, 0x16e), (0x170, 0x170), (0x172, 0x172), (0x174, 0x174),
   (0x176, 0x176), (0x178, 0x179), (0x17b, 0x17b), (0x17d, 0x17d),
   (0x181, 0x182), (0x184, 0x184), (0x186, 0x187), (0x189, 0x18b),
   (0x18e, 0x191), (0x193, 0x194), (0x196, 0x198), (0x19c, 0x19d),
   (0x19f, 0x1a0), (0x1a2, 0x1a2), (0x1a4, 0x1a4), (0x1a6, 0x1a7),
   (0x1a9, 0x1a9), (0x1ac, 0x1ac), (0x1ae, 0x1af), (0x1b1, 0x1b3),
   (0x1b5, 0x1b5), (0x1b7, 0x1b8), (0x1bc, 0x1bc), (0x1c4, 0x1c4),
   (0x1c7, 0x1c7), (0x1ca, 0x1ca), (0x1cd, 0x1cd), (0x1cf, 0x1cf),
   (0x1d1, 0x1d1), (0x1d3, 0x1d3), (0x1d5, 0x1d5), (0x1d7, 0x1d7),
   (0x1d9, 0x1d9), (0x1db, 0x1db), (0x1de, 0x1de), (0x1e0, 0x1e0),
   (0x1e2, 0x1e2), (0x1e4, 0x1e4), (0x1e6, 0x1e6), (0x1e8, 0x1e8),
   (0x1ea, 0x1ea), (0x1ec, 0x1ec), (0x1ee, 0x1ee), (0x1f1, 0x1f1),
   (0x1f4, 0x1f4), (0x1f6, 0x1f8), (0x1fa, 0x1fa), (0x1fc, 0x1fc),
   (0x1fe, 0x1fe), (0x200, 0x200), (0x202, 0x202), (0x204, 0x204),
   (0x206, 0x206), (0x208, 0x208), (0x20a, 0x20a), (0x20c, 0x20c),
   (0x20e, 0x20e), (0x210, 0x210), (0x212, 0x212), (0x214, 0x214),
   (0x216, 0x216), (0x218, 0x218), (0x21a, 0x21a), (0x21c, 0x21c),
   (0x21e, 0x21e), (0x220, 0x220), (0x222, 0x222), (0x224, 0x224),
   (0x226, 0x226), (0x228, 0x228), (0x22a, 0x22a), (0x22c, 0x22c),
   (0x22e, 0x22e), (0x230, 0x230), (0x232, 0x232), (0x23a, 0x23b),
   (0x23d, 0x23e), (0x241, 0x241), (0x243, 0x246), (0x248, 0x248),
   (0x24a, 0x24a), (0x24c, 0x24c), (0x24e, 0x24e), (0x370, 0x370),
   (0x372, 0x372), (0x376, 0x376), (0x37f, 0x37f), (0x386, 0x386),
   (0x388, 0x38a), (0x38c, 0x38c), (0x38e, 0x38f), (0x391, 0x3a1),
   (0x3a3, 0x3ab), (0x3cf, 0x3cf), (0x3d2, 0x3d4), (0x3d8, 0x3d8),
   (0x3da, 0x3da), (0x3dc, 0x3dc), (0x3de, 0x3de), (0x3e0, 0x3e0),
   (0x3e2, 0x3e2), (0x3e4, 0x3e4), (0x3e6, 0x3e6), (0x3e8, 0x3e8),
   (0x3ea, 0x3ea), (0x3ec, 0x3ec), (0x3ee, 0x3ee), (0x3f4, 0x3f4),
   (0x3f7, 0x3f7), (0x3f9, 0x3fa), (0x3fd, 0x42f), (0x460, 0x460),
   (0x462, 0x462), (0x464, 0x464), (0x466, 0x466), (0x468, 0x468),
   (0x46a, 0x46a), (0x46c, 0x46c), (0x46e, 0x46e), (0x470, 0x470),
   (0x472, 0x472), (0x474, 0x474), (0x476, 0x476), (0x478, 0x478),
   (0x47a, 0x47a), (0x47c, 0x47c), (0x47e, 0x47e), (0x480, 0x480),
   (0x48a, 0x48a), (0x48c, 0x48c), (0x48e, 0x48e), (0x490, 0x490),
   (0x492, 0x492), (0x494, 0x494), (0x496, 0x496), (0x498, 0x498),
   (0x49a, 0x49a), (0x49c, 0x49c), (0x49e, 0x49e), (0x4a0, 0x4a0),
   (0x4a2, 0x4a2), (0x4a4, 0x4a4), (0x4a6, 0x4a6), (0x4a8, 0x4a8),
   (0x4aa, 0x4aa), (0x4ac, 0x4ac), (0x4ae, 0x4ae), (0x4b0, 0x4b0),
   (0x4b2, 0x4b2), (0x4b4, 0x4b4), (0x4b6, 0x4b6), (0x4b8, 0x4b8),
   (0x4ba, 0x4ba), (0x4bc, 0x4bc), (0x4be, 0x4be), (0x4c0, 0x4c1),
   (0x4c3, 0x4c3), (0x4c5, 0x4c5), (0x4c7, 0x4c7), (0x4c9, 0x4c9),
   (0x4cb, 0x4cb), (0x4cd, 0x4cd), (0x4d0, 0x4d0), (0x4d2, 0x4d2),
   (0x4d4, 0x4d4), (0x4d6, 0x4d6), (0x4d8, 0x4d8), (0x4da, 0x4da),
   (0x4dc, 0x4dc), (0x4de, 0x4de), (0x4e0, 0x4e0), (0x4e2, 0x4e2),
   (0x4e4, 0x4e4), (0x4e6, 0x4e6), (0x4e8, 0x4e8), (0x4ea, 0x4ea),
   (0x4ec, 0x4ec), (0x4ee, 0x4ee), (0x4f0, 0x4f0), (0x4f2, 0x4f2),
   (0x4f4, 0x4f4), (0x4f6, 0x4f6), (0x4f8, 0x4f8), (0x4fa, 0x4fa),
   (0x4fc, 0x4fc), (0x4fe, 0x4fe), (0x500, 0x500), (0x502, 0x502),
   (0x504, 0x504), (0x506, 0x506), (0x508, 0x508), (0x50a, 0x50a),
   (0x50c, 0x50c), (0x50e, 0x50e), (0x510, 0x510), (0x512, 0x512),
   (0x514, 0x514), (0x516, 0x516), (0x518, 0x518), (0x51a, 0x51a),
   (0x51c, 0x51c), (0x51e, 0x51e), (0x520, 0x520), (0x522, 0x522),
   (0x524, 0x524), (0x526, 0x526), (0x528, 0x528), (0x52a, 0x52a),
   (0x52c, 0x52c), (0x52e, 0x52e), (0x531, 0x556), (0x10a0, 0x10c5),
   (0x10c7, 0x10c7), (0x10cd, 0x10cd), (0x13a0, 0x13f5), (0x1c90, 0x1cba),
   (0x1cbd, 0x1cbf), (0x1e00, 0x1e00), (0x1e02, 0x1e02), (0x1e04, 0x1e04),
   (0x1e06, 0x1e06), (0x1e08, 0x1e08), (0x1e0a, 0x1e0a), (0x1e0c, 0x1e0c),
   (0x1e0e, 0x1e0e), (0x1e10, 0x1e10), (0x1e12, 0x1e12), (0x1e14, 0x1e14),
   (0x1e16, 0x1e16), (0x1e18, 0x1e18), (0x1e1a, 0x1e1a), (0x1e1c, 0x1e1c),
   (0x1e1e, 0x1e1e), (0x1e20, 0x1e20), (0x1e22, 0x1e22), (0x1e24, 0x1e24),
   (0x1e26, 0x1e26), (0x1e28, 0x1e28), (0x1e2a, 0x1e2a), (0x1e2c, 0x1e2c),
   (0x1e2e, 0x1e2e), (0x1e30, 0x1e30), (0x1e32, 0x1e32), (0x1e34, 0x1e34),
   (0x1e36, 0x1e36), (0x1e38, 0x1e38), (0x1e3a, 0x1e3a), (0x1e3c, 0x1e3c),
   (0x1e3e, 0x1e3e), (0x1e40, 0x1e40), (0x1e42, 0x1e42), (0x1e44, 0x1e44),
   (0x1e46, 0x1e46), (0x1e48, 0x1e48), (0x1e4a, 0x1e4a), (0x1e4c, 0x1e4c),
   (0x1e4e, 0x1e4e), (0x1e50, 0x1e50), (0x1e52, 0x1e52), (0x1e54, 0x1e54),
   (0x1e56, 0x1e56), (0x1e58, 0x1e58), (0x1e5a, 0x1e5a), (0x1e5c, 0x1e5c),
   (0x1e5e, 0x1e5e), (0x1e60, 0x1e60), (0x1e62, 0x1e62), (0x1e64, 0x1e64),
   (0x1e66, 0x1e66), (0x1e68, 0x1e68), (0x1e6a, 0x1e6a), (0x1e6c, 0x1e6c),
   (0x1e6e, 0x1e6e), (0x1e70, 0x1e70), (0x1e72, 0x1e72), (0x1e74, 0x1e74),
   (0x1e76, 0x1e76), (0x1e78, 0x1e78), (0x1e7a, 0x1e7a), (0x1e7c, 0x1e7c),
   (0x1e7e, 0x1e7e), (0x1e80, 0x1e80), (0x1e82, 0x1e82), (0x1e84, 0x1e84),
   (0x1e86, 0x1e86), (0x1e88, 0x1e88), (0x1e8a, 0x1e8a), (0x1e8c, 0x1e8c),
   (0x1e8e, 0x1e8e), (0x1e90, 0x1e90), (0x1e92, 0x1e92), (0x1e94, 0x1e94),
   (0x1e9e, 0x1e9e), (0x1ea0, 0x1ea0), (0x1ea2, 0x1ea2), (0x1ea4, 0x1ea4),
   (0x1ea6, 0x1ea6), (0x1ea8, 0x1ea8), (0x1eaa, 0x1eaa), (0x1eac, 0x1eac),
   (0x1eae, 0x1eae), (0x1eb0, 0x1eb0), (0x1eb2, 0x1eb2), (0x1eb4, 0x1eb4),
   (0x1eb6, 0x1eb6), (0x1eb8, 0x1eb8), (0x1eba, 0x1eba), (0x1ebc, 0x1ebc),
   (0x1ebe, 0x1ebe), (0x1ec0, 0x1ec0), (0x1ec2, 0x1ec2), (0x1ec4, 0x1ec4),
   (0x1ec6, 0x1ec6), (0x1ec8, 0x1ec8), (0x1eca, 0x1eca), (0x1ecc, 0x1ecc),
   (0x1ece, 0x1ece), (0x1ed0, 0x1ed0), (0x1ed2, 0x1ed2), (0x1ed4, 0x1ed4),
   (0x1ed6, 0x1ed6), (0x1ed8, 0x1ed8), (0x1eda, 0x1eda), (0x1edc, 0x1edc),
   (0x1ede, 0x1ede), (0x1ee0, 0x1ee0), (0x1ee2, 0x1ee2), (0x1ee4, 0x1ee4),
   (0x1ee6, 0x1ee6), (0x1ee8, 0x1ee8), (0x1eea, 0x1eea), (0x1eec, 0x1eec),
   (0x1eee, 0x1eee), (0x1ef0, 0x1ef0), (0x1ef2, 0x1ef2), (0x1ef4, 0x1ef4),
   (0x1ef6, 0x1ef6), (0x1ef8, 0x1ef8), (0x1efa, 0x1efa), (0x1efc, 0x1efc),
   (0x1efe, 0x1efe), (0x1f08, 0x1f0f), (0x1f18, 0x1f1d), (0x1f28, 0x1f2f),
   (0x1f38, 0x1f3f), (0x1f48, 0x1f4d), (0x1f59, 0x1f59), (0x1f5b, 0x1f5b),
   (0x1f5d, 0x1f5d), (0x1f5f, 0x1f5f), (0x1f68, 0x1f6f), (0x1fb8, 0x1fbb),
   (0x1fc8, 0x1fcb), (0x1fd8, 0x1fdb), (0x1fe8, 0x1fec), (0x1ff8, 0x1ffb),
   (0x2102, 0x2102), (0x2107, 0x2107), (0x210b, 0x210d), (0x2110, 0x2112),
   (0x2115, 0x2115), (0x2119, 0x211d), (0x2124, 0x2124), (0x2126, 0x2126),
   (0x2128, 0x2128), (0x212a, 0x212d), (0x2130, 0x2133), (0x213e, 0x213f),
   (0x2145, 0x2145), (0x2160, 0x216f), (0x2183, 0x2183), (0x24b6, 0x24cf),
   (0x2c00, 0x2c2f), (0x2c60, 0x2c60), (0x2c62, 0x2c64), (0x2c67, 0x2c67),
   (0x2c69, 0x2c69), (0x2c6b, 0x2c6b), (0x2c6d, 0x2c70), (0x2c72, 0x2c72),
   (0x2c75, 0x2c75), (0x2c7e, 0x2c80), (0x2c82, 0x2c82), (0x2c84, 0x2c84),
   (0x2c86, 0x2c86), (0x2c88, 0x2c88), (0x2c8a, 0x2c8a), (0x2c8c, 0x2c8c),
   (0x2c8e, 0x2c8e), (0x2c90, 0x2c90), (0x2c92, 0x2c92), (0x2c94, 0x2c94),
   (0x2c96, 0x2c96), (0x2c98, 0x2c98), (0x2c9a, 0x2c9a), (0x2c9c, 0x2c9c),
   (0x2c9e, 0x2c9e), (0x2ca0, 0x2ca0), (0x2ca2, 0x2ca2), (0x2ca4, 0x2ca4),
   (0x2ca6, 0x2ca6), (0x2ca8, 0x2ca8), (0x2caa, 0x2caa), (0x2cac, 0x2cac),
   (0x2cae, 0x2cae), (0x2cb0, 0x2cb0), (0x2cb2, 0x2cb2), (0x2cb4, 0x2cb4),
   (0x2cb6, 0x2cb6), (0x2cb8, 0x2cb8), (0x2cba, 0x2cba), (0x2cbc, 0x2cbc),
   (0x2cbe, 0x2cbe), (0x2cc0, 0x2cc0), (0x2cc2, 0x2cc2), (0x2cc4, 0x2cc4),
   (0x2cc6, 0x2cc6), (0x2cc8, 0x2cc8), (0x2cca, 0x2cca), (0x2ccc, 0x2ccc),
   (0x2cce, 0x2cce), (0x2cd0, 0x2cd0), (0x2cd2, 0x2cd2), (0x2cd4, 0x2cd4),
   (0x2cd6, 0x2cd6), (0x2cd8, 0x2cd8), (0x2cda, 0x2cda), (0x2cdc, 0x2cdc),
   (0x2cde, 0x2cde), (0x2ce0, 0x2ce0), (0x2ce2, 0x2ce2), (0x2ceb, 0x2ceb),
   (0x2ced, 0x2ced), (0x2cf2, 0x2cf2), (0xa640, 0xa640), (0xa642, 0xa642),
   (0xa644, 0xa644), (0xa646, 0xa646), (0xa648, 0xa648), (0xa64a, 0xa64a),
   (0xa64c, 0xa64c), (0xa64e, 0xa64e), (0xa650, 0xa650), (0xa652, 0xa652),
   (0xa654, 0xa654), (0xa656, 0xa656), (0xa658, 0xa658), (0xa65a, 0xa65a),
   (0xa65c, 0xa65c), (0xa65e, 0xa65e), (0xa660, 0xa660), (0xa662, 0xa662),
   (0xa664, 0xa664), (0xa666, 0xa666), (0xa668, 0xa668), (0xa66a, 0xa66a),
   (0xa66c, 0xa66c), (0xa680, 0xa680), (0xa682, 0xa682), (0xa684, 0xa684),
   (0xa686, 0xa686), (0xa688, 0xa688), (0xa68a, 0xa68a), (0xa68c, 0xa68c),
   (0xa68e, 0xa68e), (0xa690, 0xa690), (0xa692, 0xa692), (0xa694, 0xa694),
   (0xa696, 0xa696), (0xa698, 0xa698), (0xa69a, 0xa69a), (0xa722, 0xa722),
   (0xa724, 0xa724), (0xa726, 0xa726), (0xa728, 0xa728), (0xa72a, 0xa72a),
   (0xa72c, 0xa72c), (0xa72e, 0xa72e), (0xa732, 0xa732), (0xa734, 0xa734),
   (0xa736, 0xa736), (0xa738, 0xa738), (0xa73a, 0xa73a), (0xa73c, 0xa73c),
   (0xa73e, 0xa73e), (0xa740, 0xa740), (0xa742, 0xa742), (0xa744, 0xa744),
   (0xa746, 0xa746), (0xa748, 0xa748), (0xa74a, 0xa74a), (0xa74c, 0xa74c),
   (0xa74e, 0xa74e), (0xa750, 0xa750), (0xa752, 0xa752), (0xa754, 0xa754),
   (0xa756, 0xa756), (0xa758, 0xa758), (0xa75a, 0xa75a), (0xa75c, 0xa75c),
   (0xa75e, 0xa75e), (0xa760, 0xa760), (0xa762, 0xa762), (0xa764, 0xa764),
   (0xa766, 0xa766), (0xa768, 0xa768), (0xa76a, 0xa76a), (0xa76c, 0xa76c),
   (0xa76e, 0xa76e), (0xa779, 0xa779), (0xa77b, 0xa77b), (0xa77d, 0xa77e),
   (0xa780, 0xa780), (0xa782, 0xa782), (0xa784, 0xa784), (0xa786, 0xa786),
   (0xa78b, 0xa78b), (0xa78d, 0xa78d), (0xa790, 0xa790), (0xa792, 0xa792),
   (0xa796, 0xa796), (0xa798, 0xa798), (0xa79a, 0xa79a), (0xa79c, 0xa79c),
   (0xa79e, 0xa79e), (0xa7a0, 0xa7a0), (0xa7a2, 0xa7a2), (0xa7a4, 0xa7a4),
   (0xa7a6, 0xa7a6), (0xa7a8, 0xa7a8), (0xa7aa, 0xa7ae), (0xa7b0, 0xa7b4),
   (0xa7b6, 0xa7b6), (0xa7b8, 0xa7b8), (0xa7ba, 0xa7ba), (0xa7bc, 0xa7bc),
   (0xa7be, 0xa7be), (0xa7c0, 0xa7c0), (0xa7c2, 0xa7c2), (0xa7c4, 0xa7c7),
   (0xa7c9, 0xa7c9), (0xa7d0, 0xa7d0), (0xa7d6, 0xa7d6), (0xa7d8, 0xa7d8),
   (0xa7f5, 0xa7f5), (0xff21, 0xff3a), (0x10400, 0x10427),
   (0x104b0, 0x104d3), (0x10570, 0x1057a), (0x1057c, 0x1058a),
   (0x1058c, 0x10592), (0x10594, 0x10595), (0x10c80, 0x10cb2),
   (0x118a0, 0x118bf), (0x16e40, 0x16e5f), (0x1d400, 0x1d419),
   (0x1d434, 0x1d44d), (0x1d468, 0x1d481), (0x1d49c, 0x1d49c),
   (0x1d49e, 0x1d49f), (0x1d4a2, 0x1d4a2), (0x1d4a5, 0x1d4a6),
   (0x1d4a9, 0x1d4ac), (0x1d4ae, 0x1d4b5), (0x1d4d0, 0x1d4e9),
   (0x1d504, 0x1d505), (0x1d507, 0x1d50a), (0x1d50d, 0x1d514),
   (0x1d516, 0x1d51c), (0x1d538, 0x1d539), (0x1d53b, 0x1d53e),
   (0x1d540, 0x1d544), (0x1d546, 0x1d546), (0x1d54a, 0x1d550),
   (0x1d56c, 0x1d585), (0x1d5a0, 0x1d5b9), (0x1d5d4, 0x1d5ed),
   (0x1d608, 0x1d621), (0x1d63c, 0x1d655), (0x1d670, 0x1d689),
   (0x1d6a8, 0x1d6c0), (0x1d6e2, 0x1d6fa), (0x1d71c, 0x1d734),
   (0x1d756, 0x1d76e), (0x1d790, 0x1d7a8), (0x1d7ca, 0x1d7ca),
   (0x1e900, 0x1e921), (0x1f130, 0x1f149), (0x1f150, 0x1f169),
   (0x1f170, 0x1f189)]
/-- Inclusive code-point ranges of the characters for which Python's
per-character `islower()` test holds (the lowercase characters of the Unicode
database CPython uses, version 14.0). -/
def lowerRanges : List (Nat × Nat) :=
  [(0x61, 0x7a), (0xaa, 0xaa), (0xb5, 0xb5), (0xba, 0xba), (0xdf, 0xf6),
   (0xf8, 0xff), (0x101, 0x101), (0x103, 0x103), (0x105, 0x105),
   (0x107, 0x107), (0x109, 0x109), (0x10b, 0x10b), (0x10d, 0x10d),
   (0x10f, 0x10f), (0x111, 0x111), (0x113, 0x113), (0x115, 0x115),
   (0x117, 0x117), (0x119, 0x119), (0x11b, 0x11b), (0x11d, 0x11d),
   (0x11f, 0x11f), (0x121, 0x121), (0x123, 0x123), (0x125, 0x125),
   (0x127, 0x127), (0x129, 0x129), (0x12b, 0x12b), (0x12d, 0x12d),
   (0x12f, 0x12f), (0x131, 0x131), (0x133, 0x133), (0x135, 0x135),
   (0x137, 0x138), (0x13a, 0x13a), (0x13c, 0x13c), (0x13e, 0x13e),
   (0x140, 0x140), (0x142, 0x142), (0x144, 0x144), (0x146, 0x146),
   (0x148, 0x149), (0x14b, 0x14b), (0x14d, 0x14d), (0x14f, 0x14f),
   (0x151, 0x151), (0x153, 0x153), (0x155, 0x155), (0x157, 0x157),
   (0x159, 0x159), (0x15b, 0x15b), (0x15d, 0x15d), (0x15f, 0x15f),
   (0x161, 0x161), (0x163, 0x163), (0x165, 0x165), (0x167, 0x167),
   (0x169, 0x169), (0x16b, 0x16b), (0x16d, 0x16d), (0x16f, 0x16f),
   (0x171, 0x171), (0x173, 0x173), (0x175, 0x175), (0x177, 0x177),
   (0x17a, 0x17a), (0x17c, 0x17c), (0x17e, 0x180), (0x183, 0x183),
   (0x185, 0x185), (0x188, 0x188), (0x18c, 0x18d), (0x192, 0x192),
   (0x195, 0x195), (0x199, 0x19b), (0x19e, 0x19e), (0x1a1, 0x1a1),
   (0x1a3, 0x1a3), (0x1a5, 0x1a5), (0x1a8, 0x1a8), (0x1aa, 0x1ab),
   (0x1ad, 0x1ad), (0x1b0, 0x1b0), (0x1b4, 0x1b4), (0x1b6, 0x1b6),
   (0x1b9, 0x1ba), (0x1bd, 0x1bf), (0x1c6, 0x1c6), (0x1c9, 0x1c9),
   (0x1cc, 0x1cc), (0x1ce, 0x1ce), (0x1d0, 0x1d0), (0x1d2, 0x1d2),
   (0x1d4, 0x1d4), (0x1d6, 0x1d6), (0x1d8, 0x1d8), (0x1da, 0x1da),
   (0x1dc, 0x1dd), (0x1df, 0x1df), (0x1e1, 0x1e1), (0x1e3, 0x1e3),
   (0x1e5, 0x1e5), (0x1e7, 0x1e7), (0x1e9, 0x1e9), (0x1eb, 0x1eb),
   (0x1ed, 0x1ed), (0x1ef, 0x1f0), (0x1f3, 0x1f3), (0x1f5, 0x1f5),
   (0x1f9, 0x1f9), (0x1fb, 0x1fb), (0x1fd, 0x1fd), (0x1ff, 0x1ff),
   (0x201, 0x201), (0x203, 0x203), (0x205, 0x205), (0x207, 0x207),
   (0x209, 0x209), (0x20b, 0x20b), (0x20d, 0x20d), (0x20f, 0x20f),
   (0x211, 0x211), (0x213, 0x213), (0x215, 0x215), (0x217, 0x217),
   (0x219, 0x219), (0x21b, 0x21b), (0x21d, 0x21d), (0x21f, 0x21f),
   (0x221, 0x221), (0x223, 0x223), (0x225, 0x225), (0x227, 0x227),
   (0x229, 0x229), (0x22b, 0x22b), (0x22d, 0x22d), (0x22f, 0x22f),
   (0x231, 0x231), (0x233, 0x239), (0x23c, 0x23c), (0x23f, 0x240),
   (0x242, 0x242), (0x247, 0x247), (0x249, 0x249), (0x24b, 0x24b),
   (0x24d, 0x24d), (0x24f, 0x293), (0x295, 0x2b8), (0x2c0, 0x2c1),
   (0x2e0, 0x2e4), (0x345, 0x345), (0x371, 0x371), (0x373, 0x373),
   (0x377, 0x377), (0x37a, 0x37d), (0x390, 0x390), (0x3ac, 0x3ce),
   (0x3d0, 0x3d1), (0x3d5, 0x3d7), (0x3d9, 0x3d9), (0x3db, 0x3db),
   (0x3dd, 0x3dd), (0x3df, 0x3df), (0x3e1, 0x3e1), (0x3e3, 0x3e3),
   (0x3e5, 0x3e5), (0x3e7, 0x3e7), (0x3e9, 0x3e9), (0x3eb, 0x3eb),
   (0x3ed, 0x3ed), (0x3ef, 0x3f3), (0x3f5, 0x3f5), (0x3f8, 0x3f8),
   (0x3fb, 0x3fc), (0x430, 0x45f), (0x461, 0x461), (0x463, 0x463),
   (0x465, 0x465), (0x467, 0x467), (0x469, 0x469), (0x46b, 0x46b),
   (0x46d, 0x46d), (0x46f, 0x46f), (0x471, 0x471), (0x473, 0x473),
   (0x475, 0x475), (0x477, 0x477), (0x479, 0x479), (0x47b, 0x47b),
   (0x47d, 0x47d), (0x47f, 0x47f), (0x481, 0x481), (0x48b, 0x48b),
   (0x48d, 0x48d), (0x48f, 0x48f), (0x491, 0x491), (0x493, 0x493),
   (0x495, 0x495), (0x497, 0x497), (0x499, 0x499), (0x49b, 0x49b),
   (0x49d, 0x49d), (0x49f, 0x49f), (0x4a1, 0x4a1), (0x4a3, 0x4a3),
   (0x4a5, 0x4a5), (0x4a7, 0x4a7), (0x4a9, 0x4a9), (0x4ab, 0x4ab),
   (0x4ad, 0x4ad), (0x4af, 0x4af), (0x4b1, 0x4b1), (0x4b3, 0x4b3),
   (0x4b5, 0x4b5), (0x4b7, 0x4b7), (0x4b9, 0x4b9), (0x4bb, 0x4bb),
   (0x4bd, 0x4bd), (0x4bf, 0x4bf), (0x4c2, 0x4c2), (0x4c4, 0x4c4),
   (0x4c6, 0x4c6), (0x4c8, 0x4c8), (0x4ca, 0x4ca), (0x4cc, 0x4cc),
   (0x4ce, 0x4cf), (0x4d1, 0x4d1), (0x4d3, 0x4d3), (0x4d5, 0x4d5),
   (0x4d7, 0x4d7), (0x4d9, 0x4d9), (0x4db, 0x4db), (0x4dd, 0x4dd),
   (0x4df, 0x4df), (0x4e1, 0x4e1), (0x4e3, 0x4e3), (0x4e5, 0x4e5),
   (0x4e7, 0x4e7), (0x4e9, 0x4e9), (0x4eb, 0x4eb), (0x4ed, 0x4ed),
   (0x4ef, 0x4ef), (0x4f1, 0x4f1), (0x4f3, 0x4f3), (0x4f5, 0x4f5),
   (0x4f7, 0x4f7), (0x4f9, 0x4f9), (0x4fb, 0x4fb), (0x4fd, 0x4fd),
   (0x4ff, 0x4ff), (0x501, 0x501), (0x503, 0x503), (0x505, 0x505),
   (0x507, 0x507), (0x509, 0x509), (0x50b, 0x50b), (0x50d, 0x50d),
   (0x50f, 0x50f), (0x511, 0x511), (0x513, 0x513), (0x515, 0x515),
   (0x517, 0x517), (0x519, 0x519), (0x51b, 0x51b), (0x51d, 0x51d),
   (0x51f, 0x51f), (0x521, 0x521), (0x523, 0x523), (0x525, 0x525),
   (0x527, 0x527), (0x529, 0x529), (0x52b, 0x52b), (0x52d, 0x52d),
   (0x52f, 0x52f), (0x560, 0x588), (0x10d0, 0x10fa), (0x10fd, 0x10ff),
   (0x13f8, 0x13fd), (0x1c80, 0x1c88), (0x1d00, 0x1dbf), (0x1e01, 0x1e01),
   (0x1e03, 0x1e03), (0x1e05, 0x1e05), (0x1e07, 0x1e07), (0x1e09, 0x1e09),
   (0x1e0b, 0x1e0b), (0x1e0d, 0x1e0d), (0x1e0f, 0x1e0f), (0x1e11, 0x1e11),
   (0x1e13, 0x1e13), (0x1e15, 0x1e15), (0x1e17, 0x1e17), (0x1e19, 0x1e19),
   (0x1e1b, 0x1e1b), (0x1e1d, 0x1e1d), (0x1e1f, 0x1e1f), (0x1e21, 0x1e21),
   (0x1e23, 0x1e23), (0x1e25, 0x1e25), (0x1e27, 0x1e27), (0x1e29, 0x1e29),
   (0x1e2b, 0x1e2b), (0x1e2d, 0x1e2d), (0x1e2f, 0x1e2f), (0x1e31, 0x1e31),
   (0x1e33, 0x1e33), (0x1e35, 0x1e35), (0x1e37, 0x1e37), (0x1e39, 0x1e39),
   (0x1e3b, 0x1e3b), (0x1e3d, 0x1e3d), (0x1e3f, 0x1e3f), (0x1e41, 0x1e41),
   (0x1e43, 0x1e43), (0x1e45, 0x1e45), (0x1e47, 0x1e47), (0x1e49, 0x1e49),
   (0x1e4b, 0x1e4b), (0x1e4d, 0x1e4d), (0x1e4f, 0x1e4f), (0x1e51, 0x1e51),
   (0x1e53, 0x1e53), (0x1e55, 0x1e55), (0x1e57, 0x1e57), (0x1e59, 0x1e59),
   (0x1e5b, 0x1e5b), (0x1e5d, 0x1e5d), (0x1e5f, 0x1e5f), (0x1e61, 0x1e61),
   (0x1e63, 0x1e63), (0x1e65, 0x1e65), (0x1e67, 0x1e67), (0x1e69, 0x1e69),
   (0x1e6b, 0x1e6b), (0x1e6d, 0x1e6d), (0x1e6f, 0x1e6f), (0x1e71, 0x1e71),
   (0x1e73, 0x1e73), (0x1e75, 0x1e75), (0x1e77, 0x1e77), (0x1e79, 0x1e79),
   (0x1e7b, 0x1e7b), (0x1e7d, 0x1e7d), (0x1e7f, 0x1e7f), (0x1e81, 0x1e81),
   (0x1e83, 0x1e83), (0x1e85, 0x1e85), (0x1e87, 0x1e87), (0x1e89, 0x1e89),
   (0x1e8b, 0x1e8b), (0x1e8d, 0x1e8d), (0x1e8f, 0x1e8f), (0x1e91, 0x1e91),
   (0x1e93, 0x1e93), (0x1e95, 0x1e9d), (0x1e9f, 0x1e9f), (0x1ea1, 0x1ea1),
   (0x1ea3, 0x1ea3), (0x1ea5, 0x1ea5), (0x1ea7, 0x1ea7), (0x1ea9, 0x1ea9),
   (0x1eab, 0x1eab), (0x1ead, 0x1ead), (0x1eaf, 0x1eaf), (0x1eb1, 0x1eb1),
   (0x1eb3, 0x1eb3), (0x1eb5, 0x1eb5), (0x1eb7, 0x1eb7), (0x1eb9, 0x1eb9),
   (0x1ebb, 0x1ebb), (0x1ebd, 0x1ebd), (0x1ebf, 0x1ebf), (0x1ec1, 0x1ec1),
   (0x1ec3, 0x1ec3), (0x1ec5, 0x1ec5), (0x1ec7, 0x1ec7), (0x1ec9, 0x1ec9),
   (0x1ecb, 0x1ecb), (0x1ecd, 0x1ecd), (0x1ecf, 0x1ecf), (0x1ed1, 0x1ed1),
   (0x1ed3, 0x1ed3), (0x1ed5, 0x1ed5), (0x1ed7, 0x1ed7), (0x1ed9, 0x1ed9),
   (0x1edb, 0x1edb), (0x1edd, 0x1edd), (0x1edf, 0x1edf), (0x1ee1, 0x1ee1),
   (0x1ee3, 0x1ee3), (0x1ee5, 0x1ee5), (0x1ee7, 0x1ee7), (0x1ee9, 0x1ee9),
   (0x1eeb, 0x1eeb), (0x1eed, 0x1eed), (0x1eef, 0x1eef), (0x1ef1, 0x1ef1),
   (0x1ef3, 0x1ef3), (0x1ef5, 0x1ef5), (0x1ef7, 0x1ef7), (0x1ef9, 0x1ef9),
   (0x1efb, 0x1efb), (0x1efd, 0x1efd), (0x1eff, 0x1f07), (0x1f10, 0x1f15),
   (0x1f20, 0x1f27), (0x1f30, 0x1f37), (0x1f40, 0x1f45), (0x1f50, 0x1f57),
   (0x1f60, 0x1f67), (0x1f70, 0x1f7d), (0x1f80, 0x1f87), (0x1f90, 0x1f97),
   (0x1fa0, 0x1fa7), (0x1fb0, 0x1fb4), (0x1fb6, 0x1fb7), (0x1fbe, 0x1fbe),
   (0x1fc2, 0x1fc4), (0x1fc6, 0x1fc7), (0x1fd0, 0x1fd3), (0x1fd6, 0x1fd7),
   (0x1fe0, 0x1fe7), (0x1ff2, 0x1ff4), (0x1ff6, 0x1ff7), (0x2071, 0x2071),
   (0x207f, 0x207f), (0x2090, 0x209c), (0x210a, 0x210a), (0x210e, 0x210f),
   (0x2113, 0x2113), (0x212f, 0x212f), (0x2134, 0x2134), (0x2139, 0x2139),
   (0x213c, 0x213d), (0x2146, 0x2149), (0x214e, 0x214e), (0x2170, 0x217f),
   (0x2184, 0x2184), (0x24d0, 0x24e9), (0x2c30, 0x2c5f), (0x2c61, 0x2c61),
   (0x2c65, 0x2c66), (0x2c68, 0x2c68), (0x2c6a, 0x2c6a), (0x2c6c, 0x2c6c),
   (0x2c71, 0x2c71), (0x2c73, 0x2c74), (0x2c76, 0x2c7d), (0x2c81, 0x2c81),
   (0x2c83, 0x2c83), (0x2c85, 0x2c85), (0x2c87, 0x2c87), (0x2c89, 0x2c89),
   (0x2c8b, 0x2c8b), (0x2c8d, 0x2c8d), (0x2c8f, 0x2c8f), (0x2c91, 0x2c91),
   (0x2c93, 0x2c93), (0x2c95, 0x2c95), (0x2c97, 0x2c97), (0x2c99, 0x2c99),
   (0x2c9b, 0x2c9b), (0x2c9d, 0x2c9d), (0x2c9f, 0x2c9f), (0x2ca1, 0x2ca1),
   (0x2ca3, 0x2ca3), (0x2ca5, 0x2ca5), (0x2ca7, 0x2ca7), (0x2ca9, 0x2ca9),
   (0x2cab, 0x2cab), (0x2cad, 0x2cad), (0x2caf, 0x2caf), (0x2cb1, 0x2cb1),
   (0x2cb3, 0x2cb3), (0x2cb5, 0x2cb5), (0x2cb7, 0x2cb7), (0x2cb9, 0x2cb9),
   (0x2cbb, 0x2cbb), (0x2cbd, 0x2cbd), (0x2cbf, 0x2cbf), (0x2cc1, 0x2cc1),
   (0x2cc3, 0x2cc3), (0x2cc5, 0x2cc5), (0x2cc7, 0x2cc7), (0x2cc9, 0x2cc9),
   (0x2ccb, 0x2ccb), (0x2ccd, 0x2ccd), (0x2ccf, 0x2ccf), (0x2cd1, 0x2cd1),
   (0x2cd3, 0x2cd3), (0x2cd5, 0x2cd5), (0x2cd7, 0x2cd7), (0x2cd9, 0x2cd9),
   (0x2cdb, 0x2cdb), (0x2cdd, 0x2cdd), (0x2cdf, 0x2cdf), (0x2ce1, 0x2ce1),
   (0x2ce3, 0x2ce4), (0x2cec, 0x2cec), (0x2cee, 0x2cee), (0x2cf3, 0x2cf3),
   (0x2d00, 0x2d25), (0x2d27, 0x2d27), (0x2d2d, 0x2d2d), (0xa641, 0xa641),
   (0xa643, 0xa643), (0xa645, 0xa645), (0xa647, 0xa647), (0xa649, 0xa649),
   (0xa64b, 0xa64b), (0xa64d, 0xa64d), (0xa64f, 0xa64f), (0xa651, 0xa651),
   (0xa653, 0xa653), (0xa655, 0xa655), (0xa657, 0xa657), (0xa659, 0xa659),
   (0xa65b, 0xa65b), (0xa65d, 0xa65d), (0xa65f, 0xa65f), (0xa661, 0xa661),
   (0xa663, 0xa663), (0xa665, 0xa665), (0xa667, 0xa667), (0xa669, 0xa669),
   (0xa66b, 0xa66b), (0xa66d, 0xa66d), (0xa681, 0xa681), (0xa683, 0xa683),
   (0xa685, 0xa685), (0xa687, 0xa687), (0xa689, 0xa689), (0xa68b, 0xa68b),
   (0xa68d, 0xa68d), (0xa68f, 0xa68f), (0xa691, 0xa691), (0xa693, 0xa693),
   (0xa695, 0xa695), (0xa697, 0xa697), (0xa699, 0xa699), (0xa69b, 0xa69d),
   (0xa723, 0xa723), (0xa725, 0xa725), (0xa727, 0xa727), (0xa729, 0xa729),
   (0xa72b, 0xa72b), (0xa72d, 0xa72d), (0xa72f, 0xa731), (0xa733, 0xa733),
   (0xa735, 0xa735), (0xa737, 0xa737), (0xa739, 0xa739), (0xa73b, 0xa73b),
   (0xa73d, 0xa73d), (0xa73f, 0xa73f), (0xa741, 0xa741), (0xa743, 0xa743),
   (0xa745, 0xa745), (0xa747, 0xa747), (0xa749, 0xa749), (0xa74b, 0xa74b),
   (0xa74d, 0xa74d), (0xa74f, 0xa74f), (0xa751, 0xa751), (0xa753, 0xa753),
   (0xa755, 0xa755), (0xa757, 0xa757), (0xa759, 0xa759), (0xa75b, 0xa75b),
   (0xa75d, 0xa75d), (0xa75f, 0xa75f), (0xa761, 0xa761), (0xa763, 0xa763),
   (0xa765, 0xa765), (0xa767, 0xa767), (0xa769, 0xa769), (0xa76b, 0xa76b),
   (0xa76d, 0xa76d), (0xa76f, 0xa778), (0xa77a, 0xa77a), (0xa77c, 0xa77c),
   (0xa77f, 0xa77f), (0xa781, 0xa781), (0xa783, 0xa783), (0xa785, 0xa785),
   (0xa787, 0xa787), (0xa78c, 0xa78c), (0xa78e, 0xa78e), (0xa791, 0xa791),
   (0xa793, 0xa795), (0xa797, 0xa797), (0xa799, 0xa799), (0xa79b, 0xa79b),
   (0xa79d, 0xa79d), (0xa79f, 0xa79f), (0xa7a1, 0xa7a1), (0xa7a3, 0xa7a3),
   (0xa7a5, 0xa7a5), (0xa7a7, 0xa7a7), (0xa7a9, 0xa7a9), (0xa7af, 0xa7af),
   (0xa7b5, 0xa7b5), (0xa7b7, 0xa7b7), (0xa7b9, 0xa7b9), (0xa7bb, 0xa7bb),
   (0xa7bd, 0xa7bd), (0xa7bf, 0xa7bf), (0xa7c1, 0xa7c1), (0xa7c3, 0xa7c3),
   (0xa7c8, 0xa7c8), (0xa7ca, 0xa7ca), (0xa7d1, 0xa7d1), (0xa7d3, 0xa7d3),
   (0xa7d5, 0xa7d5), (0xa7d7, 0xa7d7), (0xa7d9, 0xa7d9), (0xa7f6, 0xa7f6),
   (0xa7f8, 0xa7fa), (0xab30, 0xab5a), (0xab5c, 0xab68), (0xab70, 0xabbf),
   (0xfb00, 0xfb06), (0xfb13, 0xfb17), (0xff41, 0xff5a), (0x10428, 0x1044f),
   (0x104d8, 0x104fb), (0x10597, 0x105a1), (0x105a3, 0x105b1),
   (0x105b3, 0x105b9), (0x105bb, 0x105bc), (0x10780, 0x10780),
   (0x10783, 0x10785), (0x10787, 0x107b0), (0x107b2, 0x107ba),
   (0x10cc0, 0x10cf2), (0x118c0, 0x118df), (0x16e60, 0x16e7f),
   (0x1d41a, 0x1d433), (0x1d44e, 0x1d454), (0x1d456, 0x1d467),
   (0x1d482, 0x1d49b), (0x1d4b6, 0x1d4b9), (0x1d4bb, 0x1d4bb),
   (0x1d4bd, 0x1d4c3), (0x1d4c5, 0x1d4cf), (0x1d4ea, 0x1d503),
   (0x1d51e, 0x1d537), (0x1d552, 0x1d56b), (0x1d586, 0x1d59f),
   (0x1d5ba, 0x1d5d3), (0x1d5ee, 0x1d607), (0x1d622, 0x1d63b),
   (0x1d656, 0x1d66f), (0x1d68a, 0x1d6a5), (0x1d6c2, 0x1d6da),
   (0x1d6dc, 0x1d6e1), (0x1d6fc, 0x1d714), (0x1d716, 0x1d71b),
   (0x1d736, 0x1d74e), (0x1d750, 0x1d755), (0x1d770, 0x1d788),
   (0x1d78a, 0x1d78f), (0x1d7aa, 0x1d7c2), (0x1d7c4, 0x1d7c9),
   (0x1d7cb, 0x1d7cb), (0x1df00, 0x1df09), (0x1df0b, 0x1df1e),
   (0x1e922, 0x1e943)]
/-- Inclusive code-point ranges of the titlecase characters (category Lt). -/
def titleRanges : List (Nat × Nat) :=
  [(0x1c5, 0x1c5), (0x1c8, 0x1c8), (0x1cb, 0x1cb), (0x1f2, 0x1f2),
   (0x1f88, 0x1f8f), (0x1f98, 0x1f9f), (0x1fa8, 0x1faf), (0x1fbc, 0x1fbc),
   (0x1fcc, 0x1fcc), (0x1ffc, 0x1ffc)]

/-- Python's per-character `isupper` property. -/
def pyIsUpperChar (c : Char) : Bool := inRanges upperRanges c.toNat

/-- Python's per-character `islower` property. -/
def pyIsLowerChar (c : Char) : Bool := inRanges lowerRanges c.toNat

/-- Titlecase character (category Lt). -/
def pyIsTitleChar (c : Char) : Bool := inRanges titleRanges c.toNat

/-- Python `str.isupper()`: at least one cased character and every cased
character uppercase.  CPython computes this per character: any lowercase or
titlecase character makes the result false, and an uppercase character
witnesses that a cased character is present. -/
def pyStrIsUpper (s : List Char) : Bool :=
  s.any pyIsUpperChar && !(s.any (fun c => pyIsLowerChar c || pyIsTitleChar c))

/-- The Russian alphabet literal from `is_russian_text` (both cases, ё/Ё
included). -/
def russianChars : List Char :=
  "абвгдеёжзийклмнопрстуфхцчшщъыьэюяАБВГДЕЁЖЗИЙКЛМНОПРСТУФХЦЧШЩЪЫЬЭЮЯ".data

/-- Membership in the script's Russian-alphabet set. -/
def isRussianChar (c : Char) : Bool := russianChars.contains c

/-- Embedding of `is_russian_text`: empty text is rejected; otherwise the
number of Russian letters in the whole text is divided by the length of the
stripped text and compared against the threshold 0.3 (modelled exactly as the
rational 3/10). -/
def is_russian_text (text : List Char) : Bool :=
  if text.isEmpty then false
  else
    let russian_count := (text.filter isRussianChar).length
    let total_count := (pyStrip text).length
    if total_count = 0 then false
    else decide (mkRat russian_count total_count > mkRat 3 10)

/-- Embedding of `is_russian_pdf`: the `open`/`read`/decode step is
represented by its outcome (`Except.ok` carrying the decoded text,
`Except.error` when any exception was raised while reading the file); the
function's catch-all `except` clause turns every error into `false`. -/
def is_russian_pdf (r : Except String (List Char)) : Bool :=
  match r with
  | Except.ok text => is_russian_text text
  | Except.error _ => false

/-! ### Regex search

`reSearchFirst pAt l` models `re.search`: try the pattern at each position of
the text from left to right and return the first match.  `pAt` gives, for the
suffix starting at a position, the substring matched there (with the pattern's
own greedy/backtracking behaviour), or `none`. -/

/-- Leftmost match of a pattern, trying every start position left to right. -/
def reSearchFirst (pAt : List Char → Option (List Char)) : List Char → Option (List Char)
  | [] => pAt []
  | c :: rest =>
    match pAt (c :: rest) with
    | some m => some m
    | none => reSearchFirst pAt rest

/-! ### Amount extraction

The three patterns of `extract_amount`, with `re.search`'s greedy
backtracking behaviour reproduced for each:
pattern 1 is `\d{1,3}(?:\s?\d{3})*(?:,\d{2})?`, pattern 2 is
`\d+(?:,\d{2})?`, pattern 3 is `\d+`. -/

/-- The group part `(?:\s?\d{3})*` of pattern 1: greedily consume either a
whitespace character followed by three digits, or three digits; return the
consumed prefix and the remainder.  (Backtracking never revisits an earlier
iteration because everything after the group can match the empty string.) -/
def p1Star : List Char → List Char × List Char
  | a :: b :: c :: d :: rest =>
    if pyIsSpace a && isPyDigit b && isPyDigit c && isPyDigit d then
      let (g, r) := p1Star rest
      (a :: b :: c :: d :: g, r)
    else if isPyDigit a && isPyDigit b && isPyDigit c then
      let (g, r) := p1Star (d :: rest)
      (a :: b :: c :: g, r)
    else ([], a :: b :: c :: d :: rest)
  | [a, b, c] =>
    if isPyDigit a && isPyDigit b && isPyDigit c then ([a, b, c], [])
    else ([], [a, b, c])
  | l => ([], l)

/-- The optional fraction `(?:,\d{2})?`: a comma followed by exactly two
digits, or nothing. -/
def p1Comma (l : List Char) : List Char × List Char :=
  match l with
  | a :: x :: y :: rest =>
    if a = ',' && isPyDigit x && isPyDigit y then ([a, x, y], rest) else ([], l)
  | _ => ([], l)

/-- The number of characters the greedy `\d{1,3}` takes at the start of `l`:
three, or the whole digit run when it is shorter. -/
def kOf (l : List Char) : Nat :=
  if 3 ≤ (l.takeWhile isPyDigit).length then 3 else (l.takeWhile isPyDigit).length

/-- Match of pattern 1 at the start of `l`: `\d{1,3}` greedily takes up to
three leading digits (failing when there is none), then the group and the
optional fraction extend the match. -/
def p1At (l : List Char) : Option (List Char) :=
  let ds := l.takeWhile isPyDigit
  if ds.isEmpty then none
  else
    let (g, r) := p1Star (l.drop (kOf l))
    let (c, _) := p1Comma r
    some (l.take (kOf l) ++ g ++ c)

/-- Match of pattern 2 at the start of `l`: `\d+` takes the whole digit run,
then the optional `,\d{2}` fraction. -/
def p2At (l : List Char) : Option (List Char) :=
  let ds := l.takeWhile isPyDigit
  if ds.isEmpty then none
  else
    let (c, _) := p1Comma (l.drop ds.length)
    some (ds ++ c)

/-- Match of pattern 3 at the start of `l`: the digit run `\d+`. -/
def p3At (l : List Char) : Option (List Char) :=
  let ds := l.takeWhile isPyDigit
  if ds.isEmpty then none else some ds

/-- The script's transformation of a matched string:
`.replace(' ', '').replace(',', '.')` — note only the ASCII space U+0020 is
removed, other whitespace matched by `\s` stays. -/
def cleanAmount (l : List Char) : List Char :=
  (l.filter (fun c => decide (c ≠ ' '))).map (fun c => if c = ',' then '.' else c)

/-- Value of a digit string (most significant first); non-digits contribute 0
but never occur at call sites. -/
def digitsVal (l : List Char) : ℕ :=
  l.foldl (fun acc c => 10 * acc + (pyDigitVal c).getD 0) 0

/-- Python `float()` on the strings this script can produce: surrounding
whitespace is stripped, then the string must be `digits`, `digits.digits`,
`digits.` or `.digits` over Unicode decimal digits (which `float` converts to
their values); anything else raises `ValueError`, modelled as `none`.  Signs,
exponents, underscores, `inf`/`nan` cannot occur in a regex match of the three
patterns and are not modelled. -/
def pyFloat (l : List Char) : Option ℚ :=
  let t := pyStrip l
  let ip := t.takeWhile isPyDigit
  match t.drop ip.length with
  | [] => if ip.isEmpty then none else some (digitsVal ip : ℚ)
  | '.' :: r2 =>
    let fp := r2.takeWhile isPyDigit
    if (r2.drop fp.length).isEmpty && !(ip.isEmpty && fp.isEmpty) then
      some (mkRat (digitsVal ip * 10 ^ fp.length + digitsVal fp) (10 ^ fp.length))
    else none
  | _ => none

/-- One iteration of the loop in `extract_amount`: search for the pattern; on
a match, transform and parse it, returning the value on success; on a parse
failure or no match, fall through (`none`). -/
def tryPat (pAt : List Char → Option (List Char)) (text : List Char) :
    Option (List Char × ℚ) :=
  match reSearchFirst pAt text with
  | some m =>
    match pyFloat (cleanAmount m) with
    | some v => some (m, v)
    | none => none
  | none => none

/-- Embedding of `extract_amount`, additionally recording which substring was
matched by the pattern that produced the returned value. -/
def extract_amountM (text : List Char) : Option (List Char × ℚ) :=
  match tryPat p1At text with
  | some mv => some mv
  | none =>
  match tryPat p2At text with
  | some mv => some mv
  | none => tryPat p3At text

/-- Embedding of `extract_amount`: the value alone. -/
def extract_amount (text : List Char) : Option ℚ :=
  (extract_amountM text).map Prod.snd

/-! ### Vendor extraction -/

/-- Match of a vendor pattern `MARKER\s+([^\n]+)` at the start of `l`,
returning the captured group (before `strip`).  After the marker, `\s+`
greedily takes the whitespace run `w`; if a character follows the run it is a
non-newline character and the capture runs to the end of that line.  If the
run reaches the end of the text the engine backtracks: `\s+` gives characters
of `w` back to `[^\n]+`, which then captures the last non-`'\n'` character of
`w` after the first (all later characters of `w` being `'\n'`); if no such
character exists the pattern fails at this position. -/
def vendorMarkAt (marker : List Char) (l : List Char) : Option (List Char) :=
  if l.take marker.length = marker then
    let after := l.drop marker.length
    let w := after.takeWhile pyIsSpace
    let rest := after.drop w.length
    if w.isEmpty then none
    else
      match rest with
      | _ :: _ => some (rest.takeWhile (fun c => decide (c ≠ '\n')))
      | [] =>
        match (w.drop 1).reverse.dropWhile (fun c => decide (c = '\n')) with
        | [] => none
        | c :: _ => some [c]
  else none

/-- The company patterns of `extract_vendor`, tried in order: `ООО`, `ЗАО`,
`ПАО`, `ИП`, each followed by `\s+([^\n]+)`; the first pattern with a match
anywhere in the text wins. -/
def markerSearch (text : List Char) : Option (List Char) :=
  match reSearchFirst (vendorMarkAt "ООО".data) text with
  | some g => some g
  | none =>
  match reSearchFirst (vendorMarkAt "ЗАО".data) text with
  | some g => some g
  | none =>
  match reSearchFirst (vendorMarkAt "ПАО".data) text with
  | some g => some g
  | none => reSearchFirst (vendorMarkAt "ИП".data) text

/-- The line heuristic's test: the stripped line is entirely uppercase, or is
non-empty and begins with an uppercase character. -/
def lineHit (line : List Char) : Bool :=
  let s := pyStrip line
  pyStrIsUpper s ||
    (match s with
     | c :: _ => pyIsUpperChar c
     | [] => false)

/-- First line satisfying `lineHit`, returned stripped. -/
def findFirstLine : List (List Char) → Option (List Char)
  | [] => none
  | l :: ls => if lineHit l then some (pyStrip l) else findFirstLine ls

/-- Embedding of `extract_vendor`: marker patterns first (result stripped),
then the first upper-case-leading line, then the fixed sentinel. -/
def extract_vendor (text : List Char) : List Char :=
  match markerSearch text with
  | some g => pyStrip g
  | none =>
    match findFirstLine (pySplit '\n' text) with
    | some s => s
    | none => "Неизвестный поставщик".data

/-! ### Aggregation -/

/-- One row of the detail table built in `process_eml_files`: vendor (供应商),
optional amount (金额), the PDF's filename and the source eml path. -/
structure InvoiceRecord where
  vendor : List Char
  amount : Option ℚ
  pdfFilename : List Char
  sourceEml : List Char

/-- A record's contribution to its vendor's total: the amount, with a missing
amount counted as 0 (pandas sums with `skipna=True`). -/
def amountOrZero (r : InvoiceRecord) : ℚ := r.amount.getD 0

/-- The distinct vendor strings of a record list (one entry per distinct
vendor; the pandas groupby orders rows by key, but no claim depends on
order). -/
def uniqueVendors : List InvoiceRecord → List (List Char)
  | [] => []
  | r :: rs =>
    let ks := uniqueVendors rs
    if r.vendor ∈ ks then ks else r.vendor :: ks

/-- Embedding of the aggregation in `process_eml_files`:
`df.groupby('供应商')['金额'].sum()` — one row per distinct vendor string with
the sum of that vendor's amounts, missing amounts counted as 0. -/
def vendor_summary (rs : List InvoiceRecord) : List (List Char × ℚ) :=
  (uniqueVendors rs).map
    (fun v => (v, ((rs.filter (fun r => r.vendor = v)).map amountOrZero).sum))

/-! ### Spec-side definitions used to state claims -/

/-- The fraction the spec's classifier sentence describes: Russian letters
among the non-whitespace characters of the text. -/
def russianNonWsFraction (text : List Char) : ℚ :=
  mkRat (text.filter isRussianChar).length
    (text.filter (fun c => !pyIsSpace c)).length

/-- The first successful regex match in the text for the first pattern that
matches, in pattern order. -/
def amountFirstMatch (text : List Char) : Option (List Char) :=
  match reSearchFirst p1At text with
  | some m => some m
  | none =>
  match reSearchFirst p2At text with
  | some m => some m
  | none => reSearchFirst p3At text

/-- The amount algorithm as the spec sentence reads literally: take the first
matching pattern's first match, transform and parse it, and return "no
amount" when no pattern matches or that matched string fails numeric
parsing. -/
def amountSpecLiteral (text : List Char) : Option ℚ :=
  match amountFirstMatch text with
  | some m => pyFloat (cleanAmount m)
  | none => none

/-- The amount algorithm with the parse-failure behaviour the code actually
has: a matched string that fails numeric parsing falls through to the next
pattern instead of ending the search. -/
def amountSpecFallthrough (text : List Char) : Option ℚ :=
  match (reSearchFirst p1At text).bind (fun m => pyFloat (cleanAmount m)) with
  | some v => some v
  | none =>
  match (reSearchFirst p2At text).bind (fun m => pyFloat (cleanAmount m)) with
  | some v => some v
  | none => (reSearchFirst p3At text).bind (fun m => pyFloat (cleanAmount m))

/-! ## Helper lemmas -/

theorem lineHit_strip_ne_nil {l : List Char} (h : lineHit l = true) :
    pyStrip l ≠ [] := by
  intro hnil
  unfold lineHit at h
  rw [hnil] at h
  simp [pyStrIsUpper] at h

theorem findFirstLine_some_ne_nil {ls : List (List Char)} {s : List Char}
    (h : findFirstLine ls = some s) : s ≠ [] := by
  induction ls with
  | nil => simp [findFirstLine] at h
  | cons l ls ih =>
    unfold findFirstLine at h
    by_cases hl : lineHit l = true
    · rw [if_pos hl] at h
      exact Option.some.inj h ▸ lineHit_strip_ne_nil hl
    · rw [if_neg hl] at h
      exact ih h

theorem findFirstLine_eq_none {ls : List (List Char)}
    (h : ∀ l ∈ ls, lineHit l = false) : findFirstLine ls = none := by
  induction ls with
  | nil => rfl
  | cons l ls ih =>
    have hl : lineHit l = false := h l (List.mem_cons_self l ls)
    unfold findFirstLine
    rw [if_neg (by simp [hl])]
    exact ih (fun x hx => h x (List.mem_cons_of_mem l hx))

theorem space_not_digitN {n : Nat} (h : pyIsSpaceN n = true) : pyDigitValN n = none := by
  unfold pyIsSpaceN at h
  simp only [Bool.or_eq_true, decide_eq_true_eq, Bool.and_eq_true] at h
  have hrange : ∀ m : Nat, 0x2000 ≤ m → m ≤ 0x200a → pyDigitValN m = none := by
    intro m h1 h2
    interval_cases m <;> decide
  rcases h with
    (((((((((((((((((h | h) | h) | h) | h) | h) | h) | h) | h) | h) | h) | h)
      | h) | ⟨h1, h2⟩) | h) | h) | h) | h) | h
  all_goals first
  | exact hrange _ h1 h2
  | (subst h; decide)

theorem digit_not_space {c : Char} (h : isPyDigit c = true) : pyIsSpace c = false := by
  unfold isPyDigit pyDigitVal at h
  unfold pyIsSpace
  cases hs : pyIsSpaceN c.toNat with
  | false => rfl
  | true => rw [space_not_digitN hs] at h; simp at h

theorem digit_ne_comma {c : Char} (h : isPyDigit c = true) : c ≠ ',' := by
  intro hc
  subst hc
  revert h
  decide

theorem digit_ne_space {c : Char} (h : isPyDigit c = true) : c ≠ ' ' := by
  intro hc
  subst hc
  revert h
  decide

theorem digit_ne_newline {c : Char} (h : isPyDigit c = true) : c ≠ '\n' := by
  intro hc
  subst hc
  revert h
  decide

/-- The star of pattern 1 consumes nothing when it starts with a character
that is neither whitespace nor a digit. -/
theorem p1Star_not_start {a : Char} (cs : List Char) (h1 : pyIsSpace a = false)
    (h2 : isPyDigit a = false) : p1Star (a :: cs) = ([], a :: cs) := by
  match cs with
  | [] => rfl
  | [x] => rfl
  | [x, y] => simp [p1Star, h2]
  | x :: y :: z :: rest => simp [p1Star, h1, h2]

/-- A non-empty star consumption starts with the first character of the
input. -/
theorem p1Star_fst_head (l : List Char) :
    (p1Star l).1 = [] ∨ (p1Star l).1.head? = l.head? := by
  match l with
  | [] => exact Or.inl rfl
  | [a] => exact Or.inl rfl
  | [a, b] => exact Or.inl rfl
  | [a, b, c] =>
    unfold p1Star
    split
    · exact Or.inr rfl
    · exact Or.inl rfl
  | a :: b :: c :: d :: rest =>
    unfold p1Star
    split
    · exact Or.inr rfl
    · split
      · exact Or.inr rfl
      · exact Or.inl rfl

/-- Shape of the optional-fraction match: either nothing, or a comma and two
digits. -/
theorem p1Comma_shape (l : List Char) :
    p1Comma l = ([], l) ∨
      ∃ x y rest, l = ',' :: x :: y :: rest ∧ isPyDigit x = true ∧
        isPyDigit y = true ∧ p1Comma l = ([',', x, y], rest) := by
  match l with
  | [] => exact Or.inl rfl
  | [a] => exact Or.inl rfl
  | [a, b] => exact Or.inl rfl
  | a :: x :: y :: rest =>
    simp only [p1Comma]
    by_cases hc : (a = ',' && isPyDigit x && isPyDigit y) = true
    · rw [if_pos hc]
      simp only [Bool.and_eq_true, decide_eq_true_eq] at hc
      obtain ⟨⟨ha, hx⟩, hy⟩ := hc
      subst ha
      exact Or.inr ⟨x, y, rest, rfl, hx, hy, rfl⟩
    · rw [if_neg hc]
      exact Or.inl rfl

/-- The optional fraction consumes nothing when the input does not start with
a comma. -/
theorem p1Comma_no_comma (l : List Char)
    (h : l = [] ∨ ∃ a cs, l = a :: cs ∧ a ≠ ',') : p1Comma l = ([], l) := by
  rcases p1Comma_shape l with hc | ⟨x, y, rest, hl, _, _, _⟩
  · exact hc
  · rcases h with rfl | ⟨a, cs, rfl, ha⟩
    · simp at hl
    · rw [List.cons.injEq] at hl
      exact absurd hl.1 ha

/-- The star consumes nothing on an empty or comma-headed input. -/
theorem p1Star_stop (c : List Char) (hc : c = [] ∨ ∃ cs, c = ',' :: cs) :
    p1Star c = ([], c) := by
  rcases hc with rfl | ⟨cs, rfl⟩
  · rfl
  · exact p1Star_not_start cs (by decide) (by decide)

/-- Re-running the star on its own consumed prefix, followed by an empty or
comma-headed remainder, consumes exactly that prefix again. -/
theorem p1Star_self (l c : List Char) (hc : c = [] ∨ ∃ cs, c = ',' :: cs) :
    p1Star ((p1Star l).1 ++ c) = ((p1Star l).1, c) := by
  have hc0 : p1Star c = ([], c) := p1Star_stop c hc
  induction l using p1Star.induct with
  | case1 a b c' d rest hcond g r hgr ih =>
    rw [show p1Star (a :: b :: c' :: d :: rest) = (a :: b :: c' :: d :: g, r) from by
      simp [p1Star, hcond, hgr]]
    have ih' : p1Star (g ++ c) = (g, c) := by rw [hgr] at ih; exact ih
    show p1Star (a :: b :: c' :: d :: (g ++ c)) = (a :: b :: c' :: d :: g, c)
    simp [p1Star, hcond, ih']
  | case2 a b c' d rest hcond1 hcond2 g r hgr ih =>
    rw [show p1Star (a :: b :: c' :: d :: rest) = (a :: b :: c' :: g, r) from by
      simp [p1Star, hcond1, hcond2, hgr]]
    have ih' : p1Star (g ++ c) = (g, c) := by rw [hgr] at ih; exact ih
    have hda : isPyDigit a = true := by
      simp only [Bool.and_eq_true] at hcond2
      exact hcond2.1.1
    have hsa : pyIsSpace a = false := digit_not_space hda
    show p1Star (a :: b :: c' :: (g ++ c)) = (a :: b :: c' :: g, c)
    rcases hsh : g ++ c with _ | ⟨x, xs⟩
    · obtain ⟨hg, hcnil⟩ := List.append_eq_nil.mp hsh
      subst hg
      subst hcnil
      simp [p1Star, hcond2]
    · have hred : p1Star (a :: b :: c' :: x :: xs) =
          (a :: b :: c' :: (p1Star (x :: xs)).1, (p1Star (x :: xs)).2) := by
        rcases hpq : p1Star (x :: xs) with ⟨g2, r2⟩
        simp [p1Star, hsa, hcond2, hpq]
      rw [hred]
      have ih2 : p1Star (x :: xs) = (g, c) := by rw [← hsh]; exact ih'
      rw [ih2]
  | case3 a b c' d rest hcond1 hcond2 =>
    rw [show p1Star (a :: b :: c' :: d :: rest) = ([], a :: b :: c' :: d :: rest) from by
      simp [p1Star, hcond1, hcond2]]
    simpa using hc0
  | case4 a b c' hcond =>
    rw [show p1Star [a, b, c'] = ([a, b, c'], []) from by simp [p1Star, hcond]]
    rcases hc with rfl | ⟨cs, rfl⟩
    · simp [p1Star, hcond]
    · have hda : isPyDigit a = true := by
        simp only [Bool.and_eq_true] at hcond
        exact hcond.1.1
      have hsa : pyIsSpace a = false := digit_not_space hda
      have hstop : p1Star (',' :: cs) = ([], ',' :: cs) :=
        p1Star_not_start cs (by decide) (by decide)
      show p1Star (a :: b :: c' :: (',' :: cs)) = ([a, b, c'], ',' :: cs)
      simp [p1Star, hsa, hcond, hstop]
  | case5 a b c' hcond =>
    rw [show p1Star [a, b, c'] = ([], [a, b, c']) from by simp [p1Star, hcond]]
    simpa using hc0
  | case6 l h4 h3 =>
    rcases l with _ | ⟨a, _ | ⟨b, _ | ⟨c', rest⟩⟩⟩
    · simpa using hc0
    · rw [show p1Star [a] = ([], [a]) from rfl]
      simpa using hc0
    · rw [show p1Star [a, b] = ([], [a, b]) from rfl]
      simpa using hc0
    · rcases rest with _ | ⟨d, rest'⟩
      · exact (h3 a b c' rfl).elim
      · exact (h4 a b c' d rest' rfl).elim

/-- On a digit run of length divisible by three, the star consumes the whole
run and continues as it would on the remainder. -/
theorem p1Star_run_mod0 : ∀ (ds rest : List Char),
    (∀ x ∈ ds, isPyDigit x = true) → ds.length % 3 = 0 →
    p1Star (ds ++ rest) = (ds ++ (p1Star rest).1, (p1Star rest).2)
  | [], rest, _, _ => by simp
  | [d1], _, _, hmod => by simp at hmod
  | [d1, d2], _, _, hmod => by simp at hmod
  | d1 :: d2 :: d3 :: ds', rest, hds, hmod => by
    have hd1 : isPyDigit d1 = true := hds d1 (by simp)
    have hd2 : isPyDigit d2 = true := hds d2 (by simp)
    have hd3 : isPyDigit d3 = true := hds d3 (by simp)
    have hsd1 : pyIsSpace d1 = false := digit_not_space hd1
    have hds' : ∀ x ∈ ds', isPyDigit x = true := fun x hx => hds x (by simp [hx])
    have hmod' : ds'.length % 3 = 0 := by
      simp only [List.length_cons] at hmod
      omega
    have IH := p1Star_run_mod0 ds' rest hds' hmod'
    rcases hsh : ds' ++ rest with _ | ⟨x, xs⟩
    · obtain ⟨h1, h2⟩ := List.append_eq_nil.mp hsh
      subst h1
      subst h2
      simp [p1Star, hd1, hd2, hd3]
    · show p1Star (d1 :: d2 :: d3 :: (ds' ++ rest)) =
        ((d1 :: d2 :: d3 :: ds') ++ (p1Star rest).1, (p1Star rest).2)
      rw [hsh]
      have hred : p1Star (d1 :: d2 :: d3 :: x :: xs) =
          (d1 :: d2 :: d3 :: (p1Star (x :: xs)).1, (p1Star (x :: xs)).2) := by
        rcases hpq : p1Star (x :: xs) with ⟨g2, r2⟩
        simp [p1Star, hsd1, hd1, hd2, hd3, hpq]
      rw [hred, ← hsh, IH]
      simp

/-- On a digit run of length not divisible by three (after an initial
non-digit-free remainder), the star consumes the largest multiple-of-three
prefix of the run and stops inside the run. -/
theorem p1Star_run_mod12 : ∀ (ds rest : List Char),
    (∀ x ∈ ds, isPyDigit x = true) → ds.length % 3 ≠ 0 →
    (rest = [] ∨ ∃ a cs, rest = a :: cs ∧ isPyDigit a = false) →
    p1Star (ds ++ rest) =
      (ds.take (3 * (ds.length / 3)), ds.drop (3 * (ds.length / 3)) ++ rest)
  | [], _, _, hmod, _ => by simp at hmod
  | [d1], rest, hds, _, hrest => by
    have hd1 : isPyDigit d1 = true := hds d1 (by simp)
    have hsd1 : pyIsSpace d1 = false := digit_not_space hd1
    rcases hrest with rfl | ⟨a, cs, rfl, ha⟩
    · simp [p1Star]
    · rcases cs with _ | ⟨x, _ | ⟨y, zs⟩⟩ <;> simp [p1Star, hsd1, ha]
  | [d1, d2], rest, hds, _, hrest => by
    have hd1 : isPyDigit d1 = true := hds d1 (by simp)
    have hsd1 : pyIsSpace d1 = false := digit_not_space hd1
    rcases hrest with rfl | ⟨a, cs, rfl, ha⟩
    · simp [p1Star]
    · rcases cs with _ | ⟨x, xs⟩ <;> simp [p1Star, hsd1, ha]
  | d1 :: d2 :: d3 :: ds', rest, hds, hmod, hrest => by
    have hd1 : isPyDigit d1 = true := hds d1 (by simp)
    have hd2 : isPyDigit d2 = true := hds d2 (by simp)
    have hd3 : isPyDigit d3 = true := hds d3 (by simp)
    have hsd1 : pyIsSpace d1 = false := digit_not_space hd1
    have hds' : ∀ x ∈ ds', isPyDigit x = true := fun x hx => hds x (by simp [hx])
    have hmod' : ds'.length % 3 ≠ 0 := by
      simp only [List.length_cons] at hmod ⊢
      omega
    have IH := p1Star_run_mod12 ds' rest hds' hmod' hrest
    rcases ds' with _ | ⟨e, es⟩
    · simp at hmod'
    · have he : isPyDigit e = true := hds' e (by simp)
      show p1Star (d1 :: d2 :: d3 :: ((e :: es) ++ rest)) = _
      rw [List.cons_append]
      have hred : p1Star (d1 :: d2 :: d3 :: e :: (es ++ rest)) =
          (d1 :: d2 :: d3 :: (p1Star (e :: (es ++ rest))).1,
            (p1Star (e :: (es ++ rest))).2) := by
        rcases hpq : p1Star (e :: (es ++ rest)) with ⟨g2, r2⟩
        simp [p1Star, hsd1, hd1, hd2, hd3, hpq]
      rw [hred]
      rw [List.cons_append] at IH
      rw [IH]
      have harith : 3 * ((d1 :: d2 :: d3 :: e :: es : List Char).length / 3) =
          3 * ((e :: es : List Char).length / 3) + 3 := by
        simp only [List.length_cons]
        omega
      rw [harith]
      rfl

theorem takeWhile_length_le (p : Char → Bool) (l : List Char) :
    (l.takeWhile p).length ≤ l.length := by
  have h2 := List.takeWhile_append_dropWhile (p := p) (l := l)
  calc (l.takeWhile p).length
      ≤ (l.takeWhile p).length + (l.dropWhile p).length := by omega
    _ = l.length := by rw [← List.length_append, h2]

theorem drop_takeWhile_eq_dropWhile (p : Char → Bool) (l : List Char) :
    l.drop (l.takeWhile p).length = l.dropWhile p := by
  have h2 := List.takeWhile_append_dropWhile (p := p) (l := l)
  calc l.drop (l.takeWhile p).length
      = ((l.takeWhile p) ++ (l.dropWhile p)).drop (l.takeWhile p).length := by
        rw [h2]
    _ = l.dropWhile p := List.drop_left _ _

theorem dropWhile_cons_head {p : Char → Bool} {l t : List Char} {a : Char}
    (h : l.dropWhile p = a :: t) : p a = false := by
  have hh := List.head?_dropWhile_not p l
  rw [h] at hh
  simpa using hh

theorem p1At_eq_none_iff (l : List Char) :
    p1At l = none ↔ l.takeWhile isPyDigit = [] := by
  unfold p1At
  rcases hds : l.takeWhile isPyDigit with _ | ⟨d, ds'⟩ <;> simp

theorem p2At_eq_none_iff (l : List Char) :
    p2At l = none ↔ l.takeWhile isPyDigit = [] := by
  unfold p2At
  rcases hds : l.takeWhile isPyDigit with _ | ⟨d, ds'⟩ <;> simp

theorem p3At_eq_none_iff (l : List Char) :
    p3At l = none ↔ l.takeWhile isPyDigit = [] := by
  unfold p3At
  rcases hds : l.takeWhile isPyDigit with _ | ⟨d, ds'⟩ <;> simp

theorem p1At_eq_some {l : List Char} (h : l.takeWhile isPyDigit ≠ []) :
    p1At l = some (l.take (kOf l) ++ (p1Star (l.drop (kOf l))).1 ++
      (p1Comma (p1Star (l.drop (kOf l))).2).1) := by
  unfold p1At
  rw [if_neg (by simpa [List.isEmpty_iff] using h)]

theorem p2At_eq_some {l : List Char} (h : l.takeWhile isPyDigit ≠ []) :
    p2At l = some (l.takeWhile isPyDigit ++
      (p1Comma (l.drop (l.takeWhile isPyDigit).length)).1) := by
  unfold p2At
  rw [if_neg (by simpa [List.isEmpty_iff] using h)]

/-- Re-running pattern 1 on its own match returns the whole match again. -/
theorem p1At_self {l m : List Char} (h : p1At l = some m) : p1At m = some m := by
  have hds : l.takeWhile isPyDigit ≠ [] := by
    intro hnil
    rw [(p1At_eq_none_iff l).mpr hnil] at h
    exact Option.noConfusion h
  rw [p1At_eq_some hds] at h
  have hm : m = l.take (kOf l) ++ (p1Star (l.drop (kOf l))).1 ++
      (p1Comma (p1Star (l.drop (kOf l))).2).1 := (Option.some.inj h).symm
  set k := kOf l with hk
  set D := l.take k with hD
  set g := (p1Star (l.drop k)).1 with hg
  set cc := (p1Comma (p1Star (l.drop k)).2).1 with hcc
  clear_value k D g cc
  have htwlen : (l.takeWhile isPyDigit).length ≠ 0 := by
    simpa [List.length_eq_zero] using hds
  have hkle : k ≤ (l.takeWhile isPyDigit).length := by
    rw [hk]; unfold kOf; split <;> omega
  have hkpos : 1 ≤ k := by
    rw [hk]; unfold kOf; split <;> omega
  have htake : l.take k = (l.takeWhile isPyDigit).take k := by
    conv_lhs => rw [← List.takeWhile_append_dropWhile (p := isPyDigit) (l := l)]
    rw [List.take_append_of_le_length hkle]
  have hDdigits : ∀ x ∈ D, isPyDigit x = true := by
    intro x hx
    rw [hD, htake] at hx
    exact List.mem_takeWhile_imp (List.mem_of_mem_take hx)
  have hDlen : D.length = k := by
    rw [hD, List.length_take]
    exact Nat.min_eq_left (le_trans hkle (takeWhile_length_le _ _))
  have hcshape : cc = [] ∨
      ∃ x y, cc = [',', x, y] ∧ isPyDigit x = true ∧ isPyDigit y = true := by
    rcases p1Comma_shape (p1Star (l.drop k)).2 with hsh | ⟨x, y, rest, _, hx, hy, hsh⟩
    · left; rw [hcc, hsh]
    · right; exact ⟨x, y, by rw [hcc, hsh], hx, hy⟩
  have hchead : cc = [] ∨ ∃ cs, cc = ',' :: cs := by
    rcases hcshape with h0 | ⟨x, y, h0, _, _⟩
    · exact Or.inl h0
    · exact Or.inr ⟨[x, y], h0⟩
  have hstar : p1Star (g ++ cc) = (g, cc) := by
    rw [hg]
    exact p1Star_self (l.drop k) cc hchead
  have hcomma : p1Comma cc = (cc, []) := by
    rcases hcshape with h0 | ⟨x, y, h0, hx, hy⟩
    · rw [h0]; rfl
    · rw [h0]; simp [p1Comma, hx, hy]
  have htwm : m.takeWhile isPyDigit = D ++ (g ++ cc).takeWhile isPyDigit := by
    rw [hm, List.append_assoc]
    exact List.takeWhile_append_of_pos hDdigits
  -- either the whole three-digit prefix was taken, or the run was short and
  -- nothing after `D` is a digit
  have hkOfm : kOf m = k ∧ m.takeWhile isPyDigit ≠ [] := by
    by_cases h3 : 3 ≤ (l.takeWhile isPyDigit).length
    · have hk3 : k = 3 := by rw [hk]; unfold kOf; rw [if_pos h3]
      have hlen : 3 ≤ (m.takeWhile isPyDigit).length := by
        rw [htwm, List.length_append, hDlen, hk3]
        omega
      constructor
      · unfold kOf
        rw [if_pos hlen, hk3]
      · intro hnil
        rw [hnil] at hlen
        simp at hlen
    · have hkeq : k = (l.takeWhile isPyDigit).length := by
        rw [hk]; unfold kOf; rw [if_neg h3]
      have hdrop : l.drop k = l.dropWhile isPyDigit := by
        rw [hkeq]
        exact drop_takeWhile_eq_dropWhile _ _
      have hgcnil : (g ++ cc).takeWhile isPyDigit = [] := by
        have hgcase : g = [] ∨ ∃ a g', g = a :: g' ∧ isPyDigit a = false := by
          rcases p1Star_fst_head (l.drop k) with hnil | hhead
          · exact Or.inl (hg ▸ hnil)
          · rcases hgl : g with _ | ⟨a, g'⟩
            · exact Or.inl rfl
            · right
              refine ⟨a, g', rfl, ?_⟩
              rw [hg] at hgl
              rw [hgl] at hhead
              rcases hdl : l.dropWhile isPyDigit with _ | ⟨b, t⟩
              · rw [hdrop, hdl] at hhead
                simp at hhead
              · rw [hdrop, hdl] at hhead
                simp only [List.head?_cons, Option.some.injEq] at hhead
                rw [hhead]
                exact dropWhile_cons_head hdl
        rcases hgcase with rfl | ⟨a, g', rfl, ha⟩
        · rcases hchead with rfl | ⟨cs, rfl⟩
          · rfl
          · have hcd : isPyDigit ',' = false := by decide
            simp [hcd]
        · simp [ha]
      have htwm' : m.takeWhile isPyDigit = D := by rw [htwm, hgcnil, List.append_nil]
      constructor
      · unfold kOf
        rw [htwm', hDlen, hkeq]
        rw [if_neg h3]
      · rw [htwm']
        intro hnil
        rw [hnil] at hDlen
        simp at hDlen
        omega
  obtain ⟨hkm, htwmne⟩ := hkOfm
  have hmtake : m.take (kOf m) = D := by
    rw [hkm, hm, List.append_assoc]
    exact List.take_left' hDlen
  have hmdrop : m.drop (kOf m) = g ++ cc := by
    rw [hkm, hm, List.append_assoc]
    exact List.drop_left' hDlen
  rw [p1At_eq_some htwmne, hmtake, hmdrop, hstar]
  simp only [hcomma]
  rw [hm]

/-- A pattern-1 match is non-empty. -/
theorem p1At_some_ne_nil {l m : List Char} (h : p1At l = some m) : m ≠ [] := by
  have hds : l.takeWhile isPyDigit ≠ [] := by
    intro hnil
    rw [(p1At_eq_none_iff l).mpr hnil] at h
    exact Option.noConfusion h
  rw [p1At_eq_some hds] at h
  have hm := (Option.some.inj h).symm
  intro hnil
  rw [hm] at hnil
  obtain ⟨h1, _⟩ := List.append_eq_nil.mp hnil
  obtain ⟨h2, _⟩ := List.append_eq_nil.mp h1
  have hlen : (l.take (kOf l)).length = 0 := by rw [h2]; rfl
  rw [List.length_take] at hlen
  have hlne : l ≠ [] := by
    intro hl
    rw [hl] at hds
    exact hds rfl
  have hllen : 1 ≤ l.length := by
    rcases l with _ | _
    · exact absurd rfl hlne
    · simp
  have hkpos : 1 ≤ kOf l := by
    unfold kOf
    split
    · omega
    · have : (l.takeWhile isPyDigit).length ≠ 0 := by
        simpa [List.length_eq_zero] using hds
      omega
  omega

/-- Every result of the leftmost search is a match of the pattern at some
position. -/
theorem reSearchFirst_ex {pAt : List Char → Option (List Char)} :
    ∀ {t m : List Char}, reSearchFirst pAt t = some m → ∃ l, pAt l = some m := by
  intro t
  induction t with
  | nil => exact fun h => ⟨[], h⟩
  | cons c rest ih =>
    intro m h
    unfold reSearchFirst at h
    cases hp : pAt (c :: rest) with
    | some m' =>
      rw [hp] at h
      exact ⟨c :: rest, by rw [hp, Option.some.inj h]⟩
    | none =>
      rw [hp] at h
      exact ih h

/-- If the pattern matches the whole input at position zero, the search
returns that match. -/
theorem reSearchFirst_head {pAt : List Char → Option (List Char)} {m : List Char}
    (hm : pAt m = some m) (hne : m ≠ []) : reSearchFirst pAt m = some m := by
  rcases m with _ | ⟨c, rest⟩
  · exact absurd rfl hne
  · unfold reSearchFirst
    rw [hm]

/-- For a pattern that matches exactly at digit positions, the search lands on
the suffix starting at the first digit of the text. -/
theorem reSearchFirst_digit (pAt : List Char → Option (List Char))
    (hiff : ∀ l, pAt l = none ↔ l.takeWhile isPyDigit = []) (t : List Char) :
    reSearchFirst pAt t = pAt (t.dropWhile (fun c => !isPyDigit c)) := by
  induction t with
  | nil => rfl
  | cons c rest ih =>
    by_cases hd : isPyDigit c = true
    · have hne : pAt (c :: rest) ≠ none := fun hcontra => by
        rw [hiff] at hcontra
        simp [List.takeWhile_cons_of_pos hd] at hcontra
      have hdw : (c :: rest).dropWhile (fun c => !isPyDigit c) = c :: rest := by
        rw [List.dropWhile_cons_of_neg]
        simp [hd]
      rw [hdw]
      unfold reSearchFirst
      cases hp : pAt (c :: rest) with
      | some m => rfl
      | none => exact absurd hp hne
    · have hdb : isPyDigit c = false := by
        cases hdc : isPyDigit c
        · rfl
        · exact absurd hdc hd
      have hp : pAt (c :: rest) = none := by
        rw [hiff, List.takeWhile_cons_of_neg]
        simp [hdb]
      have hdw : (c :: rest).dropWhile (fun c => !isPyDigit c) =
          rest.dropWhile (fun c => !isPyDigit c) := by
        rw [List.dropWhile_cons_of_pos]
        simp [hdb]
      rw [hdw]
      unfold reSearchFirst
      rw [hp]
      exact ih

theorem dropWhile_all_neg {p : Char → Bool} {l : List Char}
    (h : ∀ x ∈ l, p x = false) : l.dropWhile p = l := by
  cases l with
  | nil => rfl
  | cons a t =>
    rw [List.dropWhile_cons_of_neg]
    simp [h a (by simp)]

theorem pyStrip_no_space {l : List Char} (h : ∀ x ∈ l, pyIsSpace x = false) :
    pyStrip l = l := by
  unfold pyStrip
  rw [dropWhile_all_neg h,
    dropWhile_all_neg (fun x hx => h x (List.mem_reverse.mp hx)),
    List.reverse_reverse]

theorem cleanAmount_of_digits {R : List Char} (h : ∀ x ∈ R, isPyDigit x = true) :
    cleanAmount R = R := by
  unfold cleanAmount
  have hfilter : R.filter (fun c => decide (c ≠ ' ')) = R :=
    List.filter_eq_self.mpr (fun a ha => by simpa using digit_ne_space (h a ha))
  rw [hfilter]
  have hmap : ∀ a ∈ R, (if a = ',' then '.' else a) = id a :=
    fun a ha => if_neg (digit_ne_comma (h a ha))
  rw [List.map_congr_left hmap, List.map_id]

theorem cleanAmount_append (a b : List Char) :
    cleanAmount (a ++ b) = cleanAmount a ++ cleanAmount b := by
  simp [cleanAmount, List.filter_append, List.map_append]

theorem cleanAmount_comma_frac {x y : Char} (hx : isPyDigit x = true)
    (hy : isPyDigit y = true) :
    cleanAmount [',', x, y] = ['.', x, y] := by
  unfold cleanAmount
  have hxs := digit_ne_space hx
  have hys := digit_ne_space hy
  have hxc := digit_ne_comma hx
  have hyc := digit_ne_comma hy
  simp [hxs, hys, hxc, hyc]

theorem pyFloat_digits {R : List Char} (h : ∀ x ∈ R, isPyDigit x = true)
    (hne : R ≠ []) : pyFloat R = some ((digitsVal R : ℚ)) := by
  unfold pyFloat
  have hstrip : pyStrip R = R :=
    pyStrip_no_space (fun x hx => digit_not_space (h x hx))
  rw [hstrip]
  dsimp only
  have htw : R.takeWhile isPyDigit = R := List.takeWhile_eq_self_iff.mpr h
  rw [htw, List.drop_length]
  simp [List.isEmpty_iff, hne]

theorem pyFloat_digits_frac {R : List Char} {x y : Char}
    (hR : ∀ a ∈ R, isPyDigit a = true) (_hne : R ≠ []) (hx : isPyDigit x = true)
    (hy : isPyDigit y = true) :
    pyFloat (R ++ ['.', x, y]) =
      some (mkRat (digitsVal R * 100 + digitsVal [x, y]) 100) := by
  unfold pyFloat
  have hstrip : pyStrip (R ++ ['.', x, y]) = R ++ ['.', x, y] := by
    apply pyStrip_no_space
    intro a ha
    rcases List.mem_append.mp ha with ha | ha
    · exact digit_not_space (hR a ha)
    · simp only [List.mem_cons, List.not_mem_nil, or_false] at ha
      rcases ha with rfl | rfl | rfl
      · decide
      · exact digit_not_space hx
      · exact digit_not_space hy
  rw [hstrip]
  have hdot : isPyDigit '.' = false := by decide
  have htw : (R ++ ['.', x, y]).takeWhile isPyDigit = R := by
    rw [List.takeWhile_append_of_pos hR, List.takeWhile_cons_of_neg (by simp [hdot])]
    simp
  dsimp only
  rw [htw, List.drop_left' rfl]
  have htwf : ([x, y] : List Char).takeWhile isPyDigit = [x, y] :=
    List.takeWhile_eq_self_iff.mpr (by
      intro a ha
      simp only [List.mem_cons, List.not_mem_nil, or_false] at ha
      rcases ha with rfl | rfl
      · exact hx
      · exact hy)
  simp [htwf, List.isEmpty_iff]

/-- Every pattern-2 match parses successfully after the transformation. -/
theorem p2At_parse_some {l m : List Char} (h : p2At l = some m) :
    ∃ v, pyFloat (cleanAmount m) = some v := by
  have hds : l.takeWhile isPyDigit ≠ [] := by
    intro hnil
    rw [(p2At_eq_none_iff l).mpr hnil] at h
    exact Option.noConfusion h
  rw [p2At_eq_some hds] at h
  have hm := (Option.some.inj h).symm
  have hR : ∀ x ∈ l.takeWhile isPyDigit, isPyDigit x = true :=
    fun x hx => List.mem_takeWhile_imp hx
  rcases p1Comma_shape (l.drop (l.takeWhile isPyDigit).length) with
    hc | ⟨x, y, rest, _, hx, hy, hc⟩
  · rw [hc] at hm
    simp only [List.append_nil] at hm
    rw [hm, cleanAmount_of_digits hR]
    exact ⟨_, pyFloat_digits hR hds⟩
  · rw [hc] at hm
    simp only at hm
    rw [hm, cleanAmount_append, cleanAmount_of_digits hR,
      cleanAmount_comma_frac hx hy]
    exact ⟨_, pyFloat_digits_frac hR hds hx hy⟩

theorem comma_part_shape (r : List Char) :
    (p1Comma r).1 = [] ∨
      ∃ x y, (p1Comma r).1 = [',', x, y] ∧ isPyDigit x = true ∧
        isPyDigit y = true := by
  rcases p1Comma_shape r with hc | ⟨x, y, rest, _, hx, hy, hc⟩
  · left; rw [hc]
  · right; exact ⟨x, y, by rw [hc], hx, hy⟩

theorem comma_part_head (r : List Char) :
    (p1Comma r).1 = [] ∨ ∃ cs, (p1Comma r).1 = ',' :: cs := by
  rcases comma_part_shape r with h | ⟨x, y, h, _, _⟩
  · exact Or.inl h
  · exact Or.inr ⟨[x, y], h⟩

theorem comma_part_rematch (r : List Char) :
    p1Comma ((p1Comma r).1) = ((p1Comma r).1, []) := by
  rcases comma_part_shape r with h | ⟨x, y, h, hx, hy⟩
  · rw [h]; rfl
  · rw [h]; simp [p1Comma, hx, hy]

theorem comma_part_tw (r : List Char) :
    ((p1Comma r).1).takeWhile isPyDigit = [] := by
  rcases comma_part_head r with h | ⟨cs, h⟩
  · rw [h]; rfl
  · rw [h]
    have : isPyDigit ',' = false := by decide
    simp [this]

/-- The case-B core of idempotence: if pattern 1 matched but its match failed
to parse, pattern 2's match is re-matched in full by pattern 1, so re-running
the extractor on it gives the same value. -/
theorem p1_fail_p2_rerun {l₀ m1 m : List Char} {v : ℚ}
    (hp1 : p1At l₀ = some m1) (hf1 : pyFloat (cleanAmount m1) = none)
    (hp2 : p2At l₀ = some m) (hf2 : pyFloat (cleanAmount m) = some v) :
    extract_amount m = some v := by
  have hds : l₀.takeWhile isPyDigit ≠ [] := by
    intro hnil
    rw [(p1At_eq_none_iff l₀).mpr hnil] at hp1
    exact Option.noConfusion hp1
  rw [p2At_eq_some hds] at hp2
  have hm : m = l₀.takeWhile isPyDigit ++
      (p1Comma (l₀.drop (l₀.takeWhile isPyDigit).length)).1 :=
    (Option.some.inj hp2).symm
  set R := l₀.takeWhile isPyDigit with hR
  set rest := l₀.dropWhile isPyDigit with hrest
  have hdropR : l₀.drop R.length = rest := drop_takeWhile_eq_dropWhile _ _
  rw [hdropR] at hm
  set c₂ := (p1Comma rest).1 with hc₂
  clear_value R rest c₂
  have hRd : ∀ x ∈ R, isPyDigit x = true := by
    rw [hR]
    exact fun x hx => List.mem_takeWhile_imp hx
  have hRne : R ≠ [] := hR ▸ hds
  have hRlen : 1 ≤ R.length := by
    rcases R with _ | _
    · exact absurd rfl hRne
    · simp
  have hsplit : l₀ = R ++ rest := by
    rw [hR, hrest, List.takeWhile_append_dropWhile]
  have hrest_shape : rest = [] ∨ ∃ a cs, rest = a :: cs ∧ isPyDigit a = false := by
    rcases hrl : rest with _ | ⟨b, t⟩
    · exact Or.inl rfl
    · right
      refine ⟨b, t, rfl, ?_⟩
      rw [hrest] at hrl
      exact dropWhile_cons_head hrl
  have hc₂tw : c₂.takeWhile isPyDigit = [] := hc₂ ▸ comma_part_tw rest
  have hc₂head : c₂ = [] ∨ ∃ cs, c₂ = ',' :: cs := hc₂ ▸ comma_part_head rest
  have hc₂rematch : p1Comma c₂ = (c₂, []) := by
    rw [hc₂]
    exact comma_part_rematch rest
  have htwm : m.takeWhile isPyDigit = R := by
    rw [hm, List.takeWhile_append_of_pos hRd, hc₂tw, List.append_nil]
  -- the match of pattern 1 on `m` is `m` itself, unless the run is long and
  -- not a multiple of three, which contradicts the parse failure of `m1`
  have hmod : R.length ≤ 3 ∨ R.length % 3 = 0 := by
    by_contra hcon
    push_neg at hcon
    obtain ⟨hgt, hnmod⟩ := hcon
    -- reconstruct m1 and show it is all digits, so it parses
    rw [p1At_eq_some (hR ▸ hds)] at hp1
    have hm1 : m1 = l₀.take (kOf l₀) ++ (p1Star (l₀.drop (kOf l₀))).1 ++
        (p1Comma (p1Star (l₀.drop (kOf l₀))).2).1 := (Option.some.inj hp1).symm
    have hk3 : kOf l₀ = 3 := by
      unfold kOf
      rw [← hR, if_pos (by omega)]
    rw [hk3] at hm1
    have hdrop3 : l₀.drop 3 = R.drop 3 ++ rest := by
      rw [hsplit, List.drop_append_of_le_length (by omega)]
    have hd3 : ∀ x ∈ R.drop 3, isPyDigit x = true :=
      fun x hx => hRd x (List.mem_of_mem_drop hx)
    have hd3mod : (R.drop 3).length % 3 ≠ 0 := by
      rw [List.length_drop]
      omega
    have hstar := p1Star_run_mod12 (R.drop 3) rest hd3 hd3mod hrest_shape
    rw [hdrop3, hstar] at hm1
    set t := 3 * ((R.drop 3).length / 3) with ht
    have htlt : t < (R.drop 3).length := by
      rw [ht]
      rw [List.length_drop] at hd3mod ⊢
      omega
    -- the remainder after the star starts with a digit, so no comma part
    have hrem : ∃ a cs, (R.drop 3).drop t ++ rest = a :: cs ∧ isPyDigit a = true := by
      rcases hdd : (R.drop 3).drop t with _ | ⟨a, cs⟩
      · exfalso
        have : ((R.drop 3).drop t).length = 0 := by rw [hdd]; rfl
        rw [List.length_drop] at this
        omega
      · refine ⟨a, cs ++ rest, by rw [List.cons_append], ?_⟩
        have : a ∈ (R.drop 3).drop t := by rw [hdd]; simp
        exact hd3 a (List.mem_of_mem_drop this)
    obtain ⟨a, cs, hacs, had⟩ := hrem
    have hnocomma : p1Comma ((R.drop 3).drop t ++ rest) =
        ([], (R.drop 3).drop t ++ rest) := by
      apply p1Comma_no_comma
      exact Or.inr ⟨a, cs, hacs, digit_ne_comma had⟩
    rw [hnocomma] at hm1
    simp only [List.append_nil] at hm1
    -- m1 is a non-empty all-digit string, so it parses: contradiction
    have htake3 : l₀.take 3 = R.take 3 := by
      rw [hsplit, List.take_append_of_le_length (by omega)]
    rw [htake3] at hm1
    have hm1d : ∀ x ∈ m1, isPyDigit x = true := by
      intro x hx
      rw [hm1] at hx
      rcases List.mem_append.mp hx with hx | hx
      · exact hRd x (List.mem_of_mem_take hx)
      · exact hRd x (List.mem_of_mem_drop (List.mem_of_mem_take hx))
    have hm1ne : m1 ≠ [] := by
      rw [hm1]
      intro hnil
      obtain ⟨h1, _⟩ := List.append_eq_nil.mp hnil
      have : (R.take 3).length = 0 := by rw [h1]; rfl
      rw [List.length_take] at this
      omega
    rw [cleanAmount_of_digits hm1d, pyFloat_digits hm1d hm1ne] at hf1
    exact Option.noConfusion hf1
  -- now show pattern 1 re-matches m in full
  have hself : p1At m = some m := by
    have htwmne : m.takeWhile isPyDigit ≠ [] := by
      rw [htwm]
      exact hRne
    rcases hmod with hle | hmod0
    · -- short run: the whole run is the `\d{1,3}` part
      have hkm : kOf m = R.length := by
        unfold kOf
        rw [htwm]
        split <;> omega
      rw [p1At_eq_some htwmne, hkm]
      have hmtake : m.take R.length = R := by
        rw [hm]
        exact List.take_left' rfl
      have hmdrop : m.drop R.length = c₂ := by
        rw [hm]
        exact List.drop_left' rfl
      rw [hmtake, hmdrop, p1Star_stop c₂ hc₂head]
      simp only [hc₂rematch]
      simp [hm]
    · by_cases h3 : R.length ≤ 3
      · -- still the short case
        have hkm : kOf m = R.length := by
          unfold kOf
          rw [htwm]
          split <;> omega
        rw [p1At_eq_some htwmne, hkm]
        have hmtake : m.take R.length = R := by
          rw [hm]
          exact List.take_left' rfl
        have hmdrop : m.drop R.length = c₂ := by
          rw [hm]
          exact List.drop_left' rfl
        rw [hmtake, hmdrop, p1Star_stop c₂ hc₂head]
        simp only [hc₂rematch]
        simp [hm]
      · -- long run, multiple of three: the star consumes the rest of the run
        have hkm : kOf m = 3 := by
          unfold kOf
          rw [htwm, if_pos (by omega)]
        rw [p1At_eq_some htwmne, hkm]
        have hmdrop : m.drop 3 = R.drop 3 ++ c₂ := by
          rw [hm, List.drop_append_of_le_length (by omega)]
        have hd3 : ∀ x ∈ R.drop 3, isPyDigit x = true :=
          fun x hx => hRd x (List.mem_of_mem_drop hx)
        have hd3mod : (R.drop 3).length % 3 = 0 := by
          rw [List.length_drop]
          omega
        have hstar := p1Star_run_mod0 (R.drop 3) c₂ hd3 hd3mod
        rw [p1Star_stop c₂ hc₂head] at hstar
        simp only [List.append_nil] at hstar
        rw [hmdrop, hstar]
        simp only [hc₂rematch]
        have hmtake : m.take 3 = R.take 3 := by
          rw [hm, List.take_append_of_le_length (by omega)]
        rw [hmtake, hm, List.append_assoc, ← List.take_append_drop 3 R,
          List.append_assoc]
        simp
  -- finish: re-run the extractor on m
  have hmne : m ≠ [] := by
    rw [hm]
    intro hnil
    exact hRne (List.append_eq_nil.mp hnil).1
  unfold extract_amount extract_amountM tryPat
  rw [reSearchFirst_head hself hmne]
  dsimp only
  rw [hf2]
  rfl

/-! ## Claim theorems -/

/-- C1: for the document text "ООО Рога и Копыта\nСумма: 12 345,67 руб." the
field extractor returns vendor exactly "Рога и Копыта" and amount exactly
12345.67. -/
theorem C1_scenario :
    extract_vendor ("ООО Рога и Копыта\nСумма: 12 345,67 руб.".data) =
      "Рога и Копыта".data ∧
    extract_amount ("ООО Рога и Копыта\nСумма: 12 345,67 руб.".data) =
      some (mkRat 1234567 100) := by
  decide

/-- C2 counterexample: on "а xx" the claimed criterion (fraction of
non-whitespace characters that are Russian letters, here 1/3 > 0.30) says
true, but the classifier returns false, because its denominator
len(text.strip()) also counts the internal space. -/
theorem C2_counterexample :
    is_russian_text ("а xx".data) = false ∧
    pyStrip ("а xx".data) ≠ [] ∧
    russianNonWsFraction ("а xx".data) > mkRat 3 10 := by
  decide

/-- C3 counterexample: on "ООО  " (marker followed by two spaces at the end
of the text) the backtracked capture is a single space, which strips to the
empty string, so the vendor extractor returns the empty string. -/
theorem C3_counterexample : extract_vendor ("ООО  ".data) = [] := by
  decide

/-- C2 amended: the classifier returns true iff the text is non-empty after
trimming and the number of Russian letters in the text divided by the length
of the trimmed text (internal whitespace included in the denominator) exceeds
0.30; in particular it returns false whenever the text trims to empty. -/
theorem C2_amended (text : List Char) :
    is_russian_text text = true ↔
      pyStrip text ≠ [] ∧
      mkRat (text.filter isRussianChar).length (pyStrip text).length >
        mkRat 3 10 := by
  unfold is_russian_text
  by_cases h1 : text.isEmpty
  · have htext : text = [] := by
      cases text with
      | nil => rfl
      | cons c r => simp [List.isEmpty] at h1
    subst htext
    simp [pyStrip]
  · simp only [h1, Bool.false_eq_true, if_false]
    by_cases h2 : (pyStrip text).length = 0
    · have hnil : pyStrip text = [] := List.length_eq_zero.mp h2
      simp [h2, hnil]
    · have hne : pyStrip text ≠ [] := fun hh => h2 (by simp [hh])
      simp [h2, hne, decide_eq_true_iff]

/-- C3 amended: whenever no legal-entity marker pattern matches, the vendor
extractor returns a non-empty string (the line heuristic returns a non-blank
stripped line and the sentinel is non-empty); a marker match, however, may
strip to the empty string. -/
theorem C3_amended (text : List Char) (h : markerSearch text = none) :
    extract_vendor text ≠ [] := by
  unfold extract_vendor
  rw [h]
  cases hf : findFirstLine (pySplit '\n' text) with
  | none => decide
  | some s => exact findFirstLine_some_ne_nil hf

/-- C3 witness: a concrete no-marker text on which the amended claim holds. -/
theorem C3_witness :
    markerSearch ("hello".data) = none ∧ extract_vendor ("hello".data) ≠ [] :=
  ⟨by decide, C3_amended ("hello".data) (by decide)⟩

/-- C4: if a marker pattern matches anywhere in the text, the extractor
returns the marker-based vendor (the stripped capture), even when some
line — in particular an earlier one — satisfies the upper-case line
heuristic. -/
theorem C4_marker_priority (text g : List Char) (h1 : markerSearch text = some g)
    (_h2 : ∃ l ∈ pySplit '\n' text, lineHit l = true) :
    extract_vendor text = pyStrip g := by
  unfold extract_vendor
  rw [h1]

set_option maxRecDepth 8000 in
/-- C4 witness: "HELLO\nООО Ромашка" has an upper-case first line, yet the
marker-based vendor wins. -/
theorem C4_witness :
    extract_vendor ("HELLO\nООО Ромашка".data) = pyStrip ("Ромашка".data) :=
  C4_marker_priority _ _ (by decide) ⟨"HELLO".data, by decide, by decide⟩

/-- C9: on a text where no marker pattern matches and no line passes the
upper-case heuristic, the extractor returns exactly the fixed sentinel. -/
theorem C9_sentinel (text : List Char) (h1 : markerSearch text = none)
    (h2 : ∀ l ∈ pySplit '\n' text, lineHit l = false) :
    extract_vendor text = "Неизвестный поставщик".data := by
  unfold extract_vendor
  rw [h1, findFirstLine_eq_none h2]

set_option maxRecDepth 8000 in
/-- C9 witness: the all-digit text "123" gets the sentinel. -/
theorem C9_witness :
    extract_vendor ("123".data) = "Неизвестный поставщик".data :=
  C9_sentinel ("123".data) (by decide) (by decide)

/-- On the value level a loop iteration is the search followed by the
transform-and-parse step. -/
theorem tryPat_map_snd (pAt : List Char → Option (List Char)) (text : List Char) :
    (tryPat pAt text).map Prod.snd =
      (reSearchFirst pAt text).bind (fun m => pyFloat (cleanAmount m)) := by
  unfold tryPat
  cases reSearchFirst pAt text with
  | none => rfl
  | some m =>
    dsimp only
    cases h : pyFloat (cleanAmount m) <;> simp [h]

/-- C5 counterexample: on "12\t345" the first pattern matches "12\t345"
(`\s?` matched the tab), that matched string fails numeric parsing (the tab
is not removed by replace(' ','')), yet the extractor does not return "no
amount": it falls through to the second pattern and returns 12.0. -/
theorem C5_counterexample :
    amountFirstMatch ("12\t345".data) = some ("12\t345".data) ∧
    amountSpecLiteral ("12\t345".data) = none ∧
    extract_amount ("12\t345".data) = some (mkRat 12 1) := by
  decide

/-- C5 amended: the three patterns are tried in the fixed order on the whole
text, the first regex match of each pattern is transformed (spaces stripped,
comma to point) and parsed; a parse failure falls through to the next
pattern, and "no amount" is returned only when every pattern either has no
match or its first match fails parsing. -/
theorem C5_amended (text : List Char) :
    extract_amount text = amountSpecFallthrough text := by
  unfold extract_amount extract_amountM amountSpecFallthrough
  rw [← tryPat_map_snd p1At text, ← tryPat_map_snd p2At text,
    ← tryPat_map_snd p3At text]
  cases tryPat p1At text with
  | some mv => rfl
  | none =>
    cases tryPat p2At text with
    | some mv => rfl
    | none => rfl

/-- C10 counterexample: on "٥" (Arabic-Indic digit five, U+0665), a text with
no ASCII decimal digit, the extractor still returns a float (5.0), because
the regex `\d` and `float()` accept any Unicode decimal digit. -/
theorem C10_counterexample :
    extract_amount ("٥".data) = some (mkRat 5 1) ∧
    (∀ c ∈ ("٥".data), ¬('0' ≤ c ∧ c ≤ '9')) := by
  decide

/-- C8: any failure of the read/decode step makes the classifier return
false (the document is excluded), and on a successful read the result is the
total, exception-free text classification — the wrapper never propagates an
error. -/
theorem C8_error_false :
    (∀ e : String, is_russian_pdf (Except.error e) = false) ∧
    (∀ t : List Char, is_russian_pdf (Except.ok t) = is_russian_text t) :=
  ⟨fun _ => rfl, fun _ => rfl⟩

theorem uniqueVendors_nodup (rs : List InvoiceRecord) : (uniqueVendors rs).Nodup := by
  induction rs with
  | nil => simp [uniqueVendors]
  | cons r rs ih =>
    unfold uniqueVendors
    by_cases h : r.vendor ∈ uniqueVendors rs
    · rw [if_pos h]
      exact ih
    · rw [if_neg h]
      exact List.nodup_cons.mpr ⟨h, ih⟩

theorem mem_uniqueVendors {v : List Char} {rs : List InvoiceRecord} :
    v ∈ uniqueVendors rs ↔ v ∈ rs.map InvoiceRecord.vendor := by
  induction rs with
  | nil => simp [uniqueVendors]
  | cons r rs ih =>
    unfold uniqueVendors
    by_cases h : r.vendor ∈ uniqueVendors rs
    · rw [if_pos h, ih]
      constructor
      · exact fun hv => List.mem_cons_of_mem _ hv
      · intro hv
        rcases List.mem_cons.mp hv with rfl | hv
        · exact ih.mp h
        · exact hv
    · rw [if_neg h]
      simp [List.mem_cons, ih]

theorem sum_filter_split (p : InvoiceRecord → Bool) (rs : List InvoiceRecord) :
    ((rs.filter p).map amountOrZero).sum +
      ((rs.filter (fun r => !p r)).map amountOrZero).sum =
      (rs.map amountOrZero).sum := by
  induction rs with
  | nil => simp
  | cons r rs ih =>
    cases hp : p r <;> simp [List.filter_cons, hp] <;> rw [← ih] <;> ring

theorem sum_grouped (ks : List (List Char)) (rs : List InvoiceRecord)
    (hnd : ks.Nodup) (hcov : ∀ r ∈ rs, r.vendor ∈ ks) :
    (ks.map
        (fun v => ((rs.filter (fun r => r.vendor = v)).map amountOrZero).sum)).sum
      = (rs.map amountOrZero).sum := by
  induction ks generalizing rs with
  | nil =>
    cases rs with
    | nil => simp
    | cons r rs => exact absurd (hcov r (List.mem_cons_self r rs)) (List.not_mem_nil _)
  | cons v ks ih =>
    have hv : v ∉ ks := (List.nodup_cons.mp hnd).1
    have hnd' : ks.Nodup := (List.nodup_cons.mp hnd).2
    have hfilter : ∀ u ∈ ks,
        rs.filter (fun r => r.vendor = u) =
          (rs.filter (fun r => !(decide (r.vendor = v)))).filter
            (fun r => r.vendor = u) := by
      intro u hu
      have huv : u ≠ v := fun hh => hv (hh ▸ hu)
      rw [List.filter_filter]
      apply List.filter_congr
      intro r _
      by_cases hru : r.vendor = u
      · have hrv : ¬(r.vendor = v) := fun hh => huv (hru.symm.trans hh)
        simp [hru, hrv, huv]
      · simp [hru]
    have hcov' : ∀ r ∈ rs.filter (fun r => !(decide (r.vendor = v))),
        r.vendor ∈ ks := by
      intro r hr
      rcases List.mem_filter.mp hr with ⟨hmem, hne⟩
      have : r.vendor ≠ v := by simpa using hne
      rcases List.mem_cons.mp (hcov r hmem) with hh | hh
      · exact absurd hh this
      · exact hh
    have hmap : ks.map
          (fun u => ((rs.filter (fun r => r.vendor = u)).map amountOrZero).sum)
        = ks.map
            (fun u =>
              (((rs.filter (fun r => !(decide (r.vendor = v)))).filter
                  (fun r => r.vendor = u)).map amountOrZero).sum) := by
      apply List.map_congr_left
      intro u hu
      rw [hfilter u hu]
    simp only [List.map_cons, List.sum_cons]
    rw [hmap, ih _ hnd' hcov',
      ← sum_filter_split (fun r => decide (r.vendor = v)) rs]

/-- C6: the aggregation produces one row per distinct vendor string (the key
column has no duplicates and contains exactly the vendors of the records),
and the vendor totals sum to the sum over all records of the amount with a
missing amount counted as 0. -/
theorem C6_grouping (rs : List InvoiceRecord) :
    ((vendor_summary rs).map Prod.fst).Nodup ∧
    (∀ v, v ∈ (vendor_summary rs).map Prod.fst ↔
      v ∈ rs.map InvoiceRecord.vendor) ∧
    ((vendor_summary rs).map Prod.snd).sum =
      (rs.map (fun r => r.amount.getD 0)).sum := by
  have hfst : (vendor_summary rs).map Prod.fst = uniqueVendors rs := by
    simp [vendor_summary, List.map_map, Function.comp_def]
  refine ⟨hfst ▸ uniqueVendors_nodup rs, fun v => hfst ▸ mem_uniqueVendors, ?_⟩
  have hsnd : (vendor_summary rs).map Prod.snd =
      (uniqueVendors rs).map
        (fun v => ((rs.filter (fun r => r.vendor = v)).map amountOrZero).sum) := by
    simp [vendor_summary, List.map_map, Function.comp_def]
  rw [hsnd, sum_grouped _ rs (uniqueVendors_nodup rs)
    (fun r hr => mem_uniqueVendors.mpr (List.mem_map_of_mem _ hr))]
  rfl

/-- C7: amount-extraction idempotence — whenever the extractor succeeds on a
text, re-running it on just the matched substring yields the same parsed
value. -/
theorem C7_idempotent (text m : List Char) (v : ℚ)
    (h : extract_amountM text = some (m, v)) : extract_amount m = some v := by
  have hs1 : reSearchFirst p1At text =
      p1At (text.dropWhile (fun c => !isPyDigit c)) :=
    reSearchFirst_digit p1At p1At_eq_none_iff text
  have hs2 : reSearchFirst p2At text =
      p2At (text.dropWhile (fun c => !isPyDigit c)) :=
    reSearchFirst_digit p2At p2At_eq_none_iff text
  have hs3 : reSearchFirst p3At text =
      p3At (text.dropWhile (fun c => !isPyDigit c)) :=
    reSearchFirst_digit p3At p3At_eq_none_iff text
  set l₀ := text.dropWhile (fun c => !isPyDigit c) with hl0
  unfold extract_amountM at h
  cases h1 : tryPat p1At text with
  | some mv =>
    rw [h1] at h
    obtain rfl : mv = (m, v) := Option.some.inj h
    unfold tryPat at h1
    rw [hs1] at h1
    cases hp : p1At l₀ with
    | none => rw [hp] at h1; exact Option.noConfusion h1
    | some m1 =>
      rw [hp] at h1
      dsimp only at h1
      cases hf : pyFloat (cleanAmount m1) with
      | none => rw [hf] at h1; exact Option.noConfusion h1
      | some v1 =>
        rw [hf] at h1
        have hpair := Option.some.inj h1
        obtain ⟨hm1, hv1⟩ : m1 = m ∧ v1 = v :=
          ⟨congrArg Prod.fst hpair, congrArg Prod.snd hpair⟩
        rw [← hm1, ← hv1]
        have hself : p1At m1 = some m1 := p1At_self hp
        have hmne : m1 ≠ [] := p1At_some_ne_nil hp
        unfold extract_amount extract_amountM tryPat
        rw [reSearchFirst_head hself hmne]
        dsimp only
        rw [hf]
        rfl
  | none =>
    rw [h1] at h
    cases h2 : tryPat p2At text with
    | none =>
      rw [h2] at h
      unfold tryPat at h2 h
      rw [hs2] at h2
      rw [hs3] at h
      cases hp2 : p2At l₀ with
      | some m2 =>
        rw [hp2] at h2
        dsimp only at h2
        rcases p2At_parse_some hp2 with ⟨v2, hv2⟩
        rw [hv2] at h2
        exact Option.noConfusion h2
      | none =>
        have hp3 : p3At l₀ = none :=
          (p3At_eq_none_iff l₀).mpr ((p2At_eq_none_iff l₀).mp hp2)
        rw [hp3] at h
        exact Option.noConfusion h
    | some mv =>
      rw [h2] at h
      obtain rfl : mv = (m, v) := Option.some.inj h
      unfold tryPat at h1 h2
      rw [hs1] at h1
      rw [hs2] at h2
      cases hp2 : p2At l₀ with
      | none => rw [hp2] at h2; exact Option.noConfusion h2
      | some m2 =>
        rw [hp2] at h2
        dsimp only at h2
        cases hf2 : pyFloat (cleanAmount m2) with
        | none => rw [hf2] at h2; exact Option.noConfusion h2
        | some v2 =>
          rw [hf2] at h2
          have hpair := Option.some.inj h2
          obtain ⟨hm2, hv2⟩ : m2 = m ∧ v2 = v :=
            ⟨congrArg Prod.fst hpair, congrArg Prod.snd hpair⟩
          subst hm2
          subst hv2
          cases hp1 : p1At l₀ with
          | none =>
            have : p2At l₀ = none :=
              (p2At_eq_none_iff l₀).mpr ((p1At_eq_none_iff l₀).mp hp1)
            rw [this] at hp2
            exact Option.noConfusion hp2
          | some m1 =>
            rw [hp1] at h1
            dsimp only at h1
            cases hf1 : pyFloat (cleanAmount m1) with
            | some v1 => rw [hf1] at h1; exact Option.noConfusion h1
            | none => exact p1_fail_p2_rerun hp1 hf1 hp2 hf2

/-- C7 witness: the run on "12 345,67 руб." matches "12 345,67" with value
12345.67, and re-running on the matched substring gives the same value. -/
theorem C7_witness :
    extract_amountM ("12 345,67 руб.".data) =
      some ("12 345,67".data, mkRat 1234567 100) ∧
    extract_amount ("12 345,67".data) = some (mkRat 1234567 100) :=
  ⟨by decide, C7_idempotent ("12 345,67 руб.".data) _ _ (by decide)⟩

/-- C10 amended: the amount extractor returns "no amount" iff the text
contains no Unicode decimal digit (the class matched by the regex `\d`); any
text containing such a digit yields some float.  (The claim's restriction to
ASCII digits is refuted by the counterexample.) -/
theorem C10_amended (text : List Char) :
    extract_amount text = none ↔ ∀ c ∈ text, isPyDigit c = false := by
  have hs1 : reSearchFirst p1At text =
      p1At (text.dropWhile (fun c => !isPyDigit c)) :=
    reSearchFirst_digit p1At p1At_eq_none_iff text
  have hs2 : reSearchFirst p2At text =
      p2At (text.dropWhile (fun c => !isPyDigit c)) :=
    reSearchFirst_digit p2At p2At_eq_none_iff text
  have hs3 : reSearchFirst p3At text =
      p3At (text.dropWhile (fun c => !isPyDigit c)) :=
    reSearchFirst_digit p3At p3At_eq_none_iff text
  set l₀ := text.dropWhile (fun c => !isPyDigit c) with hl0
  constructor
  · intro hnone
    by_contra hcon
    push_neg at hcon
    obtain ⟨c, hc, hcd⟩ := hcon
    have hcd' : isPyDigit c = true := by
      cases hdc : isPyDigit c
      · exact absurd hdc hcd
      · rfl
    have hl0ne : l₀ ≠ [] := by
      rw [hl0]
      intro hnil
      have := List.dropWhile_eq_nil_iff.mp hnil c hc
      simp [hcd'] at this
    obtain ⟨a, t, hat, had⟩ : ∃ a t, l₀ = a :: t ∧ isPyDigit a = true := by
      rcases hl : l₀ with _ | ⟨a, t⟩
      · exact absurd hl hl0ne
      · refine ⟨a, t, rfl, ?_⟩
        rw [hl0] at hl
        have := dropWhile_cons_head hl
        simpa using this
    have htw : l₀.takeWhile isPyDigit ≠ [] := by
      rw [hat, List.takeWhile_cons_of_pos had]
      simp
    obtain ⟨m1, hp1⟩ : ∃ m1, p1At l₀ = some m1 := by
      cases hp : p1At l₀ with
      | none => exact absurd ((p1At_eq_none_iff l₀).mp hp) htw
      | some m1 => exact ⟨m1, rfl⟩
    refine absurd hnone ?_
    unfold extract_amount extract_amountM tryPat
    rw [hs1, hp1]
    dsimp only
    cases hf1 : pyFloat (cleanAmount m1) with
    | some v1 => simp
    | none =>
      obtain ⟨m2, hp2⟩ : ∃ m2, p2At l₀ = some m2 := by
        cases hp : p2At l₀ with
        | none => exact absurd ((p2At_eq_none_iff l₀).mp hp) htw
        | some m2 => exact ⟨m2, rfl⟩
      obtain ⟨v2, hv2⟩ := p2At_parse_some hp2
      rw [hs2, hp2]
      dsimp only
      rw [hv2]
      simp
  · intro hall
    have hl0nil : l₀ = [] := by
      rw [hl0]
      apply List.dropWhile_eq_nil_iff.mpr
      intro x hx
      simp [hall x hx]
    have h1 : p1At l₀ = none := (p1At_eq_none_iff l₀).mpr (by rw [hl0nil]; rfl)
    have h2 : p2At l₀ = none := (p2At_eq_none_iff l₀).mpr (by rw [hl0nil]; rfl)
    have h3 : p3At l₀ = none := (p3At_eq_none_iff l₀).mpr (by rw [hl0nil]; rfl)
    unfold extract_amount extract_amountM tryPat
    rw [hs1, hs2, hs3, h1, h2, h3]
    rfl

end Invoice
